import Mathlib

/-!
# ReactOS kernel (branch 0.2.8): process attach/detach and memory start-up

A shallow embedding of `ntoskrnl/ke/process.c` and of the memory sizing and
address space layout of `ntoskrnl/mm_mminit_msvc.c`.  Kernel memory that the
attach engine touches is made explicit: the thread control blocks, the
process control blocks, caller supplied `KAPC_STATE` buffers, the page
table register, the DPC flag of the processor and the two locks.
Every function takes the machine state and gives back the state it
leaves behind; `KEBUGCHECK` ends a call in `Outcome.BugCheck`.  The system
service tables are two arrays of four entries, and a call that would leave
an array has no result.  `ULONG` arithmetic wraps at `2 ^ 32`.
-/

namespace NtosKrnl

/-! ## Data model -/

/-- A `PKPROCESS` is the address of a process control block.  `0` is `NULL`
and `1` is the value `(PKPROCESS)1` that `KeStackAttachProcess` stores as
its "already attached" mark. -/
abbrev PKPROCESS := Nat

/-- The `KIRQL` type: an interrupt request level. -/
abbrev KIRQL := Nat

/-- The level the dispatcher lock raises the processor to. -/
def DISPATCH_LEVEL : KIRQL := 2

/-- First member of the DDK enumeration `KAPC_ENVIRONMENT`. -/
def OriginalApcEnvironment : Nat := 0

/-- Second member of the DDK enumeration `KAPC_ENVIRONMENT`. -/
def AttachedApcEnvironment : Nat := 1

/-- The `KAPC_STATE` record.  `ApcListHead[KernelMode]` and
`ApcListHead[UserMode]` are kept as the sequences of queued APC objects
(each named by its address). -/
structure KAPC_STATE where
  ApcListHeadKernelMode : List Nat
  ApcListHeadUserMode : List Nat
  Process : PKPROCESS
  KernelApcInProgress : Bool
  KernelApcPending : Bool
  UserApcPending : Bool
  deriving DecidableEq, Repr, Inhabited

/-- A `PRKAPC_STATE`: the places a `KAPC_STATE` can live in.  Either one of
the two slots inside a thread control block (`&Thread->ApcState`,
`&Thread->SavedApcState`) or storage supplied by a caller. -/
inductive PRKAPC_STATE where
  | ThreadApcState (Thread : Nat)
  | ThreadSavedApcState (Thread : Nat)
  | Buffer (Address : Nat)
  deriving DecidableEq, Repr, Inhabited

/-- The `DISPATCHER_HEADER` at the start of a process control block
(`Type_` is its member `Type`). -/
structure DISPATCHER_HEADER where
  Type_ : Nat
  Size : Nat
  SignalState : Nat
  WaitListHead : List Nat
  deriving DecidableEq, Repr, Inhabited

/-- The `KPROCESS` record (the fields `process.c` reads or writes).  The
declaration of `KPROCESS` is not part of the sources at hand, so the width
of `StackCount` is not known.  `process.c` applies `++` and `--` to the
member and never reads it, so `StackCount` is kept as the number of
increments less the number of decrements applied; what a member of `w` bits
holds is that number modulo `2 ^ w`, see `StackCountMember`. -/
structure KPROCESS where
  Header : DISPATCHER_HEADER
  Affinity : Nat
  BasePriority : Int
  QuantumReset : Nat
  DirectoryTableBase : Nat
  AutoAlignment : Bool
  IopmOffset : Nat
  State : Nat
  ThreadListHead : List Nat
  ProcessLock : Nat
  StackCount : Int
  deriving DecidableEq, Repr, Inhabited

/-- The `KTHREAD` record (the fields `process.c` reads or writes).
`ApcStatePointer0` is `ApcStatePointer[OriginalApcEnvironment]` and
`ApcStatePointer1` is `ApcStatePointer[AttachedApcEnvironment]`;
`ApcQueueLock` is `true` while the spin lock is held. -/
structure KTHREAD where
  ApcState : KAPC_STATE
  SavedApcState : KAPC_STATE
  ApcStatePointer0 : PRKAPC_STATE
  ApcStatePointer1 : PRKAPC_STATE
  ApcStateIndex : Nat
  ApcQueueLock : Bool
  deriving DecidableEq, Repr, Inhabited

/-- The part of the machine the attach engine works on. `Threads` and
`Processes` are kernel memory indexed by address, `Buffers` is the memory
caller supplied `KAPC_STATE` storage lives in, `Cr3` is the page table
register, `ExecutingDpc` the DPC flag of the processor, `DispatcherLock`
is `true` while the dispatcher database lock is held. -/
structure KSTATE where
  Threads : Nat → KTHREAD
  CurrentThread : Nat
  Processes : PKPROCESS → KPROCESS
  Buffers : Nat → KAPC_STATE
  Cr3 : Nat
  ExecutingDpc : Bool
  DispatcherLock : Bool
  Irql : KIRQL

/-- The stop codes `process.c` passes to `KEBUGCHECK`. -/
inductive BugCheckCode where
  | INVALID_PROCESS_ATTACH_ATTEMPT
  | INVALID_PROCESS_DETACH_ATTEMPT
  deriving DecidableEq, Repr

/-- How a call ends: it returns, or `KEBUGCHECK` stops the system.  In both
cases the state reached is recorded. -/
inductive Outcome where
  | Return (s : KSTATE)
  | BugCheck (code : BugCheckCode) (s : KSTATE)

/-- The state a call ended in. -/
def Outcome.state : Outcome → KSTATE
  | .Return s => s
  | .BugCheck _ s => s

/-- The stop code of a call that ended in `KEBUGCHECK`. -/
def Outcome.code : Outcome → Option BugCheckCode
  | .Return _ => none
  | .BugCheck c _ => some c

/-- Whether the call came back to its caller. -/
def Outcome.returned : Outcome → Bool
  | .Return _ => true
  | .BugCheck _ _ => false

/-- Run the next call when the previous one returned; a system stop ends
the sequence. -/
def Outcome.andThen (o : Outcome) (f : KSTATE → Outcome) : Outcome :=
  match o with
  | .Return s => f s
  | .BugCheck c s => .BugCheck c s

/-! ## Memory access -/

/-- Store into a thread control block. -/
def setThread (Thread : Nat) (T : KTHREAD) (s : KSTATE) : KSTATE :=
  { s with Threads := Function.update s.Threads Thread T }

/-- Store into a process control block. -/
def setProcess (Process : PKPROCESS) (P : KPROCESS) (s : KSTATE) : KSTATE :=
  { s with Processes := Function.update s.Processes Process P }

/-- Load through a `PRKAPC_STATE`. -/
def readApcState (s : KSTATE) : PRKAPC_STATE → KAPC_STATE
  | .ThreadApcState t => (s.Threads t).ApcState
  | .ThreadSavedApcState t => (s.Threads t).SavedApcState
  | .Buffer a => s.Buffers a

/-- Store through a `PRKAPC_STATE`. -/
def writeApcState (p : PRKAPC_STATE) (v : KAPC_STATE) (s : KSTATE) : KSTATE :=
  match p with
  | .ThreadApcState t => setThread t { s.Threads t with ApcState := v } s
  | .ThreadSavedApcState t => setThread t { s.Threads t with SavedApcState := v } s
  | .Buffer a => { s with Buffers := Function.update s.Buffers a v }

/-- The assignment `p->Process = Process`. -/
def writeApcStateProcess (p : PRKAPC_STATE) (Process : PKPROCESS) (s : KSTATE) : KSTATE :=
  writeApcState p { readApcState s p with Process := Process } s

/-- The `u.LowPart` member of a `LARGE_INTEGER`. -/
def LowPart (v : Nat) : Nat := v % 2 ^ 32

/-! ## Collaborators of `process.c` -/

/-- Modelled from the spec: `KeGetCurrentThread` is defined outside the
sources at hand; it names the thread control block of the calling thread. -/
def KeGetCurrentThread (s : KSTATE) : Nat := s.CurrentThread

/-- Modelled from the spec: `KeIsExecutingDpc` is defined outside the sources
at hand; it is the query "is a DPC currently executing". -/
def KeIsExecutingDpc (s : KSTATE) : Bool := s.ExecutingDpc

/-- Modelled from the spec: `KeAcquireDispatcherDatabaseLock` is defined
outside the sources at hand.  It takes the system wide dispatcher lock,
raises the execution level and hands back the level it found.  This is the
acquire that succeeds; that a lock which is held cannot be taken a second
time is part of `runCalls`. -/
def KeAcquireDispatcherDatabaseLock (s : KSTATE) : KIRQL × KSTATE :=
  (s.Irql, { s with DispatcherLock := true, Irql := DISPATCH_LEVEL })

/-- Modelled from the spec: `KeReleaseDispatcherDatabaseLock` is defined
outside the sources at hand.  It frees the dispatcher lock and goes back to
the execution level it is given. -/
def KeReleaseDispatcherDatabaseLock (OldIrql : KIRQL) (s : KSTATE) : KSTATE :=
  { s with DispatcherLock := false, Irql := OldIrql }

/-- Modelled from the spec: `KeAcquireSpinLockAtDpcLevel` is defined outside
the sources at hand; applied to `&Thread->ApcQueueLock` it takes the APC
queue lock of the thread while already at raised level.  This is the acquire
that succeeds; that a lock which is held cannot be taken a second time is
part of `runCalls`. -/
def KeAcquireSpinLockAtDpcLevel (Thread : Nat) (s : KSTATE) : KSTATE :=
  setThread Thread { s.Threads Thread with ApcQueueLock := true } s

/-- Modelled from the spec: `KeReleaseSpinLockFromDpcLevel` is defined
outside the sources at hand; applied to `&Thread->ApcQueueLock` it frees
the APC queue lock of the thread. -/
def KeReleaseSpinLockFromDpcLevel (Thread : Nat) (s : KSTATE) : KSTATE :=
  setThread Thread { s.Threads Thread with ApcQueueLock := false } s

/-- Modelled from the spec: `KiMoveApcState` is defined outside the sources
at hand.  `KiMoveApcState(OldState, NewState)` saves or restores an APC
state: the record at `OldState` is stored at `NewState`. -/
def KiMoveApcState (OldState NewState : PRKAPC_STATE) (s : KSTATE) : KSTATE :=
  writeApcState NewState (readApcState s OldState) s

/-- Modelled from the spec: `Ke386SetPageTableDirectory` is defined outside
the sources at hand; it is the hardware page table root write primitive. -/
def Ke386SetPageTableDirectory (Value : Nat) (s : KSTATE) : KSTATE :=
  { s with Cr3 := Value }

/-! ## `process.c` -/

/-- `KiSwapProcess` (process.c:203-210). -/
def KiSwapProcess (NewProcess _OldProcess : PKPROCESS) (s : KSTATE) : KSTATE :=
  Ke386SetPageTableDirectory (LowPart (s.Processes NewProcess).DirectoryTableBase) s

/-- `KiAttachProcess` (process.c:163-201). -/
def KiAttachProcess (Thread : Nat) (Process : PKPROCESS) (ApcLock : KIRQL)
    (SavedApcState : PRKAPC_STATE) (s : KSTATE) : KSTATE :=
  -- Process->StackCount++
  let s := setProcess Process
    { s.Processes Process with StackCount := (s.Processes Process).StackCount + 1 } s
  -- swap the APC environment
  let s := KiMoveApcState (.ThreadApcState Thread) SavedApcState s
  -- reinitialize Thread->ApcState
  let s := writeApcState (.ThreadApcState Thread)
    { ApcListHeadKernelMode := []
      ApcListHeadUserMode := []
      Process := Process
      KernelApcInProgress := false
      KernelApcPending := false
      UserApcPending := false } s
  -- update the environment pointers if needed
  let s :=
    if SavedApcState = .ThreadSavedApcState Thread then
      setThread Thread
        { s.Threads Thread with
          ApcStatePointer0 := .ThreadSavedApcState Thread
          ApcStatePointer1 := .ThreadApcState Thread
          ApcStateIndex := AttachedApcEnvironment } s
    else s
  -- swap the processes
  let s := KiSwapProcess Process (readApcState s SavedApcState).Process s
  -- return to old IRQL
  let s := KeReleaseSpinLockFromDpcLevel Thread s
  KeReleaseDispatcherDatabaseLock ApcLock s

/-- `KeAttachProcess` (process.c:128-161).  `UpdatePageDirs` only touches the
page directory of the target, which is not part of `KSTATE`. -/
def KeAttachProcess (Process : PKPROCESS) (s : KSTATE) : Outcome :=
  let Thread := KeGetCurrentThread s
  let OldIrql := (KeAcquireDispatcherDatabaseLock s).1
  let s := (KeAcquireDispatcherDatabaseLock s).2
  let s := KeAcquireSpinLockAtDpcLevel Thread s
  if KeIsExecutingDpc s = true then
    .BugCheck .INVALID_PROCESS_ATTACH_ATTEMPT s
  else if (s.Threads Thread).ApcState.Process = Process ∨
      (s.Threads Thread).ApcStateIndex ≠ OriginalApcEnvironment then
    let s := KeReleaseSpinLockFromDpcLevel Thread s
    .Return (KeReleaseDispatcherDatabaseLock OldIrql s)
  else
    .Return (KiAttachProcess Thread Process OldIrql (.ThreadSavedApcState Thread) s)

/-- `KeIsAttachedProcess` (process.c:215-221): the `BOOLEAN` it returns is the
value of `ApcStateIndex`. -/
def KeIsAttachedProcess (s : KSTATE) : Nat :=
  (s.Threads (KeGetCurrentThread s)).ApcStateIndex

/-- `KeStackAttachProcess` (process.c:226-264). -/
def KeStackAttachProcess (Process : PKPROCESS) (ApcState : PRKAPC_STATE)
    (s : KSTATE) : Outcome :=
  let Thread := KeGetCurrentThread s
  let OldIrql := (KeAcquireDispatcherDatabaseLock s).1
  let s := (KeAcquireDispatcherDatabaseLock s).2
  let s := KeAcquireSpinLockAtDpcLevel Thread s
  if KeIsExecutingDpc s = true then
    .BugCheck .INVALID_PROCESS_ATTACH_ATTEMPT s
  else if (s.Threads Thread).ApcState.Process = Process then
    -- meaning already attached to the same process
    .Return (writeApcStateProcess ApcState 1 s)
  else if (s.Threads Thread).ApcStateIndex ≠ OriginalApcEnvironment then
    .Return (KiAttachProcess Thread Process OldIrql ApcState s)
  else
    let s := KiAttachProcess Thread Process OldIrql (.ThreadSavedApcState Thread) s
    .Return (writeApcStateProcess ApcState 0 s)

/-- `KeDetachProcess` (process.c:269-307). -/
def KeDetachProcess (s : KSTATE) : Outcome :=
  let Thread := KeGetCurrentThread s
  let OldIrql := (KeAcquireDispatcherDatabaseLock s).1
  let s := (KeAcquireDispatcherDatabaseLock s).2
  let s := KeAcquireSpinLockAtDpcLevel Thread s
  if (s.Threads Thread).ApcStateIndex = OriginalApcEnvironment then
    .BugCheck .INVALID_PROCESS_DETACH_ATTEMPT s
  else
    -- decrease stack count
    let Process := (s.Threads Thread).ApcState.Process
    let s := setProcess Process
      { s.Processes Process with StackCount := (s.Processes Process).StackCount - 1 } s
    -- restore the APC state
    let s := KiMoveApcState (.ThreadSavedApcState Thread) (.ThreadApcState Thread) s
    let s := writeApcStateProcess (.ThreadSavedApcState Thread) 0 s
    let s := setThread Thread
      { s.Threads Thread with
        ApcStatePointer0 := .ThreadApcState Thread
        ApcStatePointer1 := .ThreadSavedApcState Thread
        ApcStateIndex := OriginalApcEnvironment } s
    -- swap processes
    let s := KiSwapProcess (s.Threads Thread).ApcState.Process
      (s.Threads Thread).ApcState.Process s
    -- unlock dispatcher
    let s := KeReleaseSpinLockFromDpcLevel Thread s
    .Return (KeReleaseDispatcherDatabaseLock OldIrql s)

/-- `KeUnstackDetachProcess` (process.c:312-359). -/
def KeUnstackDetachProcess (ApcState : PRKAPC_STATE) (s : KSTATE) : Outcome :=
  if (readApcState s ApcState).Process = 1 then
    .Return s
  else
    let Thread := KeGetCurrentThread s
    let OldIrql := (KeAcquireDispatcherDatabaseLock s).1
    let s := (KeAcquireDispatcherDatabaseLock s).2
    let s := KeAcquireSpinLockAtDpcLevel Thread s
    if (s.Threads Thread).ApcStateIndex = OriginalApcEnvironment ∨
        (s.Threads Thread).ApcState.KernelApcInProgress = true then
      .BugCheck .INVALID_PROCESS_DETACH_ATTEMPT s
    else
      -- restore the old APC state if a process was present
      let s :=
        if (readApcState s ApcState).Process ≠ 0 then
          KiMoveApcState ApcState (.ThreadApcState Thread) s
        else
          -- the parameter is useless, so use the saved data and reset it
          let s := KiMoveApcState (.ThreadSavedApcState Thread) (.ThreadApcState Thread) s
          let s := writeApcStateProcess (.ThreadSavedApcState Thread) 0 s
          setThread Thread
            { s.Threads Thread with
              ApcStateIndex := OriginalApcEnvironment
              ApcStatePointer0 := .ThreadApcState Thread
              ApcStatePointer1 := .ThreadSavedApcState Thread } s
      -- swap processes
      let s := KiSwapProcess (s.Threads Thread).ApcState.Process
        (s.Threads Thread).ApcState.Process s
      -- return to old IRQL
      let s := KeReleaseSpinLockFromDpcLevel Thread s
      .Return (KeReleaseDispatcherDatabaseLock OldIrql s)

/-! ## Concrete machine states -/

/-- The address of a real process control block is neither `NULL` nor the
mark `(PKPROCESS)1`. -/
def IsProcess (P : PKPROCESS) : Prop := P ≠ 0 ∧ P ≠ 1

instance (P : PKPROCESS) : Decidable (IsProcess P) := by
  unfold IsProcess; infer_instance

/-- An APC state bound to `P` with work queued on both lists. -/
def sampleApcState (P : PKPROCESS) : KAPC_STATE :=
  { ApcListHeadKernelMode := [7]
    ApcListHeadUserMode := [8, 9]
    Process := P
    KernelApcInProgress := false
    KernelApcPending := true
    UserApcPending := false }

/-- A thread of process `P` in its original environment. -/
def sampleThread (Thread : Nat) (P : PKPROCESS) : KTHREAD :=
  { ApcState := sampleApcState P
    SavedApcState := default
    ApcStatePointer0 := .ThreadApcState Thread
    ApcStatePointer1 := .ThreadSavedApcState Thread
    ApcStateIndex := OriginalApcEnvironment
    ApcQueueLock := false }

/-- A process control block at address `P`: its page directory is at
`4096 * P` and nobody borrows it. -/
def sampleProcess (P : PKPROCESS) : KPROCESS :=
  { (default : KPROCESS) with DirectoryTableBase := 4096 * P, StackCount := 0 }

/-- A machine whose threads all belong to the process at address 100 and
run in their original environment, with the page table register on that
process. -/
def sampleState : KSTATE :=
  { Threads := fun t => sampleThread t 100
    CurrentThread := 0
    Processes := sampleProcess
    Buffers := fun _ => default
    Cr3 := 409600
    ExecutingDpc := false
    DispatcherLock := false
    Irql := 0 }

/-- A thread of process 100 attached to process 200 that is in the middle of
delivering a kernel mode APC. -/
def sampleThreadInApc (Thread : Nat) : KTHREAD :=
  { ApcState :=
      { ApcListHeadKernelMode := []
        ApcListHeadUserMode := []
        Process := 200
        KernelApcInProgress := true
        KernelApcPending := false
        UserApcPending := false }
    SavedApcState := sampleApcState 100
    ApcStatePointer0 := .ThreadSavedApcState Thread
    ApcStatePointer1 := .ThreadApcState Thread
    ApcStateIndex := AttachedApcEnvironment
    ApcQueueLock := false }

/-- A machine whose current thread is attached to process 200 (stack count
1) and is delivering a kernel mode APC. -/
def sampleStateInApc : KSTATE :=
  { Threads := sampleThreadInApc
    CurrentThread := 0
    Processes := Function.update sampleProcess 200 { sampleProcess 200 with StackCount := 1 }
    Buffers := fun _ => default
    Cr3 := 819200
    ExecutingDpc := false
    DispatcherLock := false
    Irql := 0 }

/-! ## Sequences of calls made by several threads -/

/-- The four calls of the attach engine; a caller buffer is named by its
address. -/
inductive AttachCall where
  | Attach (Process : PKPROCESS)
  | Detach
  | StackAttach (Process : PKPROCESS) (Buffer : Nat)
  | UnstackDetach (Buffer : Nat)
  deriving DecidableEq, Repr

/-- The state a call returned, nothing after a system stop. -/
def Outcome.toOption : Outcome → Option KSTATE
  | .Return s => some s
  | .BugCheck _ _ => none

/-- A machine together with the record of the caller buffers in use:
`Filled b = some t` when the last `KeStackAttachProcess` that wrote buffer
`b` was made by thread `t` and `b` has not been handed to
`KeUnstackDetachProcess` since. -/
structure History where
  Machine : KSTATE
  Filled : Nat → Option Nat

/-- The scheduler is outside the sources at hand: a call made by thread `t`
runs, as one atomic step, with `t` as the current thread. -/
def dispatch (t : Nat) (s : KSTATE) : KSTATE := { s with CurrentThread := t }

/-- Thread `t` makes one call.  The result is `none` when the call ends in a
system stop, and when `KeUnstackDetachProcess` is handed a buffer that is not
at that moment filled by a `KeStackAttachProcess` of the same thread. -/
def History.step (h : History) (t : Nat) : AttachCall → Option History
  | .Attach P =>
    (KeAttachProcess P (dispatch t h.Machine)).toOption.map
      fun s => { Machine := s, Filled := h.Filled }
  | .Detach =>
    (KeDetachProcess (dispatch t h.Machine)).toOption.map
      fun s => { Machine := s, Filled := h.Filled }
  | .StackAttach P b =>
    (KeStackAttachProcess P (.Buffer b) (dispatch t h.Machine)).toOption.map
      fun s => { Machine := s, Filled := Function.update h.Filled b (some t) }
  | .UnstackDetach b =>
    if h.Filled b = some t then
      (KeUnstackDetachProcess (.Buffer b) (dispatch t h.Machine)).toOption.map
        fun s => { Machine := s, Filled := Function.update h.Filled b none }
    else none

/-- A finite sequence of calls, each made by the thread it is paired with. -/
def History.run : History → List (Nat × AttachCall) → Option History
  | h, [] => some h
  | h, (t, c) :: rest => (h.step t c).bind fun h1 => h1.run rest

/-- The start of a history: no caller buffer is filled. -/
def History.start (s : KSTATE) : History := { Machine := s, Filled := fun _ => none }

/-- Thread `t` counts as a borrower of `P` when it is not in its original
environment and its current APC state is bound to `P`. -/
def threadToken (h : History) (P : PKPROCESS) (t : Nat) : Int :=
  if (h.Machine.Threads t).ApcStateIndex ≠ OriginalApcEnvironment ∧
      (h.Machine.Threads t).ApcState.Process = P then 1 else 0

/-- Buffer `b` counts as a borrower of `P` when it is filled and holds a
suspended APC state bound to the process `P`. -/
def bufferToken (h : History) (P : PKPROCESS) (b : Nat) : Int :=
  if h.Filled b ≠ none ∧ (h.Machine.Buffers b).Process = P ∧ P ≠ 0 ∧ P ≠ 1 then 1 else 0

/-- The contexts borrowing `P` among the threads and buffers below `N`. -/
def borrowers (h : History) (N : Nat) (P : PKPROCESS) : Int :=
  (Finset.range N).sum (fun t => threadToken h P t) +
    (Finset.range N).sum (fun b => bufferToken h P b)

/-- Every borrower is paid for: the threads and buffers from `N` on are
idle, and each stack count is at least the number of contexts borrowing
that process. -/
def Accounted (N : Nat) (h : History) : Prop :=
  (∀ t, N ≤ t → (h.Machine.Threads t).ApcStateIndex = OriginalApcEnvironment) ∧
  (∀ b, N ≤ b → h.Filled b = none) ∧
  ∀ P, borrowers h N P ≤ (h.Machine.Processes P).StackCount

/-- Two threads borrow process 200: thread 0 through a stacked attach that it
unstacks, thread 1 through a plain attach that it detaches. -/
def sampleCalls : List (Nat × AttachCall) :=
  [(0, .StackAttach 200 0), (1, .Attach 200), (0, .UnstackDetach 0), (1, .Detach)]

/-! ## The page table register and the active APC state -/

/-- The page table register holds the (low part of the) directory table base
of the process the current APC state of the running thread is bound to. -/
def Cr3Agrees (s : KSTATE) : Prop :=
  s.Cr3 = LowPart (s.Processes (s.Threads s.CurrentThread).ApcState.Process).DirectoryTableBase

/-! ## Process initialization -/

/-- The member `ProcessObject` of the DDK enumeration `KOBJECTS`. -/
def ProcessObject : Nat := 3

/-- The member `ProcessInMemory` of the enumeration `KPROCESS_STATE`. -/
def ProcessInMemory : Nat := 0

/-- Modelled from the spec: `KeInitializeDispatcherHeader` is defined outside
the sources at hand and the spec does not describe it; it is taken to fill
the header from its arguments and to empty the wait list. -/
def KeInitializeDispatcherHeader (_Header : DISPATCHER_HEADER) (Type_ Size SignalState : Nat) :
    DISPATCHER_HEADER :=
  { Type_ := Type_, Size := Size, SignalState := SignalState, WaitListHead := [] }

/-- `KeInitializeProcess` (process.c:66-94).  `sizeofKPROCESS` stands for
`sizeof(KPROCESS)`, which the sources at hand do not fix; `InitializeListHead`
leaves an empty list and `KeInitializeSpinLock` a free lock.  The fields are
kept as unbounded numbers, their declarations being outside the sources. -/
def KeInitializeProcess (sizeofKPROCESS : Nat) (Process : PKPROCESS) (Priority : Int)
    (Affinity : Nat) (DirectoryTableBase : Nat) (s : KSTATE) : KSTATE :=
  -- initialize the dispatcher header
  let s := setProcess Process
    { s.Processes Process with
      Header := KeInitializeDispatcherHeader (s.Processes Process).Header ProcessObject
        sizeofKPROCESS 0 } s
  -- initialize scheduler data, disable alignment faults and set the PDE
  let s := setProcess Process
    { s.Processes Process with
      Affinity := Affinity
      BasePriority := Priority
      QuantumReset := 6
      DirectoryTableBase := DirectoryTableBase
      AutoAlignment := true
      IopmOffset := 0xFFFF
      State := ProcessInMemory } s
  -- initialize the thread list
  setProcess Process { s.Processes Process with ThreadListHead := [], ProcessLock := 0 } s

/-- The machine `sampleState` in which the memory at address 300 holds the
remains of an earlier process control block with stack count 5. -/
def sampleStateStale : KSTATE :=
  { sampleState with
    Processes := Function.update sampleProcess 300 { sampleProcess 300 with StackCount := 5 } }

/-! ## System service tables -/

/-- The `KSERVICE_TABLE_DESCRIPTOR` record; the four members are addresses and
a number, `0` standing for `NULL`. -/
structure KSERVICE_TABLE_DESCRIPTOR where
  Base : Nat
  Count : Nat
  Limit : Nat
  Number : Nat
  deriving DecidableEq, Repr, Inhabited

/-- The number of entries of the two tables: the initializers at
process.c:20-35 list four. -/
def SSDT_MAX_ENTRIES : Nat := 4

/-- The two global arrays `KeServiceDescriptorTable` and
`KeServiceDescriptorTableShadow`. -/
structure SERVICE_TABLES where
  KeServiceDescriptorTable : List KSERVICE_TABLE_DESCRIPTOR
  KeServiceDescriptorTableShadow : List KSERVICE_TABLE_DESCRIPTOR
  deriving DecidableEq, Repr

/-- Both arrays have `SSDT_MAX_ENTRIES` entries. -/
def SERVICE_TABLES.WellFormed (s : SERVICE_TABLES) : Prop :=
  s.KeServiceDescriptorTable.length = SSDT_MAX_ENTRIES ∧
    s.KeServiceDescriptorTableShadow.length = SSDT_MAX_ENTRIES

instance (s : SERVICE_TABLES) : Decidable s.WellFormed := by
  unfold SERVICE_TABLES.WellFormed; infer_instance

/-- The tables as process.c:20-35 initializes them; `MainSSDT`,
`NUMBER_OF_SYSCALLS` and `MainSSPT` come from a generated header. -/
def initialServiceTables (MainSSDT NUMBER_OF_SYSCALLS MainSSPT : Nat) : SERVICE_TABLES :=
  { KeServiceDescriptorTable :=
      [ { Base := MainSSDT, Count := 0, Limit := NUMBER_OF_SYSCALLS, Number := MainSSPT },
        { Base := 0, Count := 0, Limit := 0, Number := 0 },
        { Base := 0, Count := 0, Limit := 0, Number := 0 },
        { Base := 0, Count := 0, Limit := 0, Number := 0 } ]
    KeServiceDescriptorTableShadow :=
      [ { Base := MainSSDT, Count := 0, Limit := NUMBER_OF_SYSCALLS, Number := MainSSPT },
        { Base := 0, Count := 0, Limit := 0, Number := 0 },
        { Base := 0, Count := 0, Limit := 0, Number := 0 },
        { Base := 0, Count := 0, Limit := 0, Number := 0 } ] }

/-- A store into an array entry; `none` when the index is outside the
array. -/
def storeEntry (Table : List KSERVICE_TABLE_DESCRIPTOR) (Index : Nat)
    (Entry : KSERVICE_TABLE_DESCRIPTOR) : Option (List KSERVICE_TABLE_DESCRIPTOR) :=
  if Index < Table.length then some (Table.set Index Entry) else none

/-- `KeAddSystemServiceTable` (process.c:364-387).  The result is `none` when
the call reads or writes outside one of the arrays; `||` evaluates its right
operand only when the left one is false. -/
def KeAddSystemServiceTable (Base Count Limit Number Index : Nat) (s : SERVICE_TABLES) :
    Option (Bool × SERVICE_TABLES) :=
  -- check if descriptor table entry is free
  if Index > SSDT_MAX_ENTRIES - 1 then some (false, s)
  else
    (s.KeServiceDescriptorTable[Index]?).bind fun Main =>
      if Main.Base ≠ 0 then some (false, s)
      else
        (s.KeServiceDescriptorTableShadow[Index]?).bind fun Shadow =>
          if Shadow.Base ≠ 0 then some (false, s)
          else
            -- initialize the shadow service descriptor table
            (storeEntry s.KeServiceDescriptorTableShadow Index
              { Base := Base, Limit := Limit, Number := Number, Count := Count }).map
              fun Table => (true, { s with KeServiceDescriptorTableShadow := Table })

/-- The stores process.c:406-419 makes once `KeRemoveSystemServiceTable` has
decided to remove. -/
def clearServiceTable (Index : Nat) (s : SERVICE_TABLES) : Option SERVICE_TABLES :=
  -- now clear from the shadow table
  (storeEntry s.KeServiceDescriptorTableShadow Index
    { Base := 0, Number := 0, Limit := 0, Count := 0 }).bind fun Shadow =>
    -- check if we should clean from the master one too
    if Index = 1 then
      (storeEntry s.KeServiceDescriptorTable Index
        { Base := 0, Number := 0, Limit := 0, Count := 0 }).map
        fun Main =>
          { KeServiceDescriptorTable := Main, KeServiceDescriptorTableShadow := Shadow }
    else some { s with KeServiceDescriptorTableShadow := Shadow }

/-- `KeRemoveSystemServiceTable` (process.c:392-422).  The result is `none`
when the call reads or writes outside one of the arrays. -/
def KeRemoveSystemServiceTable (Index : Nat) (s : SERVICE_TABLES) :
    Option (Bool × SERVICE_TABLES) :=
  -- make sure the index is valid
  if Index > SSDT_MAX_ENTRIES - 1 then some (false, s)
  else
    -- is there a normal descriptor table?
    (s.KeServiceDescriptorTable[Index]?).bind fun Main =>
      if Main.Base = 0 then
        -- not with the index, is there a shadow at least?
        (s.KeServiceDescriptorTableShadow[Index]?).bind fun Shadow =>
          if Shadow.Base = 0 then some (false, s)
          else (clearServiceTable Index s).map fun s1 => (true, s1)
      else (clearServiceTable Index s).map fun s1 => (true, s1)

/-- Slot `Index` is occupied: its `Base` is not `NULL` in the main table or in
the shadow table. -/
def SlotOccupied (s : SERVICE_TABLES) (Index : Nat) : Prop :=
  (s.KeServiceDescriptorTable.getD Index default).Base ≠ 0 ∨
    (s.KeServiceDescriptorTableShadow.getD Index default).Base ≠ 0

instance (s : SERVICE_TABLES) (Index : Nat) : Decidable (SlotOccupied s Index) := by
  unfold SlotOccupied; infer_instance

/-- The tables at boot, with the kernel's own table at address 4198400. -/
def sampleServiceTables : SERVICE_TABLES := initialServiceTables 4198400 232 4202496

/-! ## Memory manager start-up (`mm_mminit_msvc.c`) -/

/-- The bytes of a page on the i386. -/
def PAGE_SIZE : Nat := 4096

/-- The base of the kernel half of the address range (mm_mminit_msvc.c:386
notes the value). -/
def KERNEL_BASE : Nat := 0xC0000000

/-- Sum of two `ULONG` values. -/
def addULONG (a b : Nat) : Nat := (a + b) % 2 ^ 32

/-- Difference of two `ULONG` values; it wraps below zero. -/
def subULONG (a b : Nat) : Nat := (a + (2 ^ 32 - b % 2 ^ 32)) % 2 ^ 32

/-- Product of two `ULONG` values. -/
def mulULONG (a b : Nat) : Nat := (a * b) % 2 ^ 32

/-- Modelled from the spec: the macro `PAGE_ROUND_UP` comes from a header
outside the sources at hand; it rounds an address up to page granularity, as
a `ULONG`. -/
def PAGE_ROUND_UP (x : Nat) : Nat :=
  if x % PAGE_SIZE ≠ 0 then addULONG (x - x % PAGE_SIZE) PAGE_SIZE else x

/-- One entry of the firmware memory map (`ADDRESS_RANGE`); `Type_` is its
member `Type`, and type 1 marks usable memory. -/
structure ADDRESS_RANGE where
  BaseAddrLow : Nat
  BaseAddrHigh : Nat
  LengthLow : Nat
  LengthHigh : Nat
  Type_ : Nat
  deriving DecidableEq, Repr, Inhabited

/-- The expression
`(BIOSMemoryMap[i].BaseAddrLow + BIOSMemoryMap[i].LengthLow + PAGE_SIZE - 1) / PAGE_SIZE`
of mm_mminit_msvc.c:367 and 369. -/
def lastPageOf (e : ADDRESS_RANGE) : Nat :=
  subULONG (addULONG (addULONG e.BaseAddrLow e.LengthLow) PAGE_SIZE) 1 / PAGE_SIZE

/-- The loop of `MmInit1` at mm_mminit_msvc.c:363-371 over the first
`AddressRangeCount` entries of the map; the value is `last`. -/
def MmInit1_last (BIOSMemoryMap : List ADDRESS_RANGE) (AddressRangeCount : Nat) : Nat :=
  (BIOSMemoryMap.take AddressRangeCount).foldl
    (fun last e => if e.Type_ = 1 ∧ lastPageOf e > last then lastPageOf e else last) 0

/-- The scan of `MmInit1` (mm_mminit_msvc.c:360-376): the value of
`KeLoaderBlock.MemHigher` it leaves.  `BIOSMemoryMap` is `none` for `NULL`. -/
def MmInit1_scan (BIOSMemoryMap : Option (List ADDRESS_RANGE)) (AddressRangeCount : Nat)
    (MemHigher : Nat) : Nat :=
  match BIOSMemoryMap with
  | some Map =>
    if AddressRangeCount > 0 then
      -- if we have a bios memory map, recalculate the memory size
      if mulULONG (subULONG (MmInit1_last Map AddressRangeCount) 256) 4 > MemHigher then
        mulULONG (subULONG (MmInit1_last Map AddressRangeCount) 256) 4
      else MemHigher
    else MemHigher
  | none => MemHigher

/-- The clamp of `MmInit1` (mm_mminit_msvc.c:378-381). -/
def MmInit1_clamp (MaxMem : Nat) (MemHigher : Nat) : Nat :=
  if MemHigher ≥ mulULONG (subULONG MaxMem 1) 1024 then mulULONG (subULONG MaxMem 1) 1024
  else MemHigher

/-- The page count of `MmInit1` before the `BIOS_MEM_FIX` adjustment
(mm_mminit_msvc.c:431-441). -/
def MmInit1_detectedPages (MemHigher : Nat) : Nat :=
  if MemHigher / 4 = 0 then
    -- memory not detected, default to 8 MB
    2048
  else
    -- add 1MB for standard memory (not extended)
    addULONG (MemHigher / 4) 256

/-- The page count of `MmInit1` (mm_mminit_msvc.c:431-444); `BIOS_MEM_FIX`
tells whether the build defines the macro of that name. -/
def MmInit1_NrTotalPages (BIOS_MEM_FIX : Bool) (MemHigher : Nat) : Nat :=
  if BIOS_MEM_FIX then addULONG (MmInit1_detectedPages MemHigher) 16
  else MmInit1_detectedPages MemHigher

/-- What the memory sizing of `MmInit1` leaves behind. -/
structure MM_SIZING where
  MemHigher : Nat
  DetectedPages : Nat
  NrTotalPages : Nat
  deriving DecidableEq, Repr

/-- The memory sizing of `MmInit1` (mm_mminit_msvc.c:360-381 and 431-444):
`KeLoaderBlock.MemHigher` after the scan and the clamp, and
`MmStats.NrTotalPages` before and after the `BIOS_MEM_FIX` adjustment. -/
def MmInit1_sizing (BIOS_MEM_FIX : Bool) (BIOSMemoryMap : Option (List ADDRESS_RANGE))
    (AddressRangeCount MaxMem MemHigher : Nat) : MM_SIZING :=
  let MemHigher := MmInit1_clamp MaxMem (MmInit1_scan BIOSMemoryMap AddressRangeCount MemHigher)
  { MemHigher := MemHigher
    DetectedPages := MmInit1_detectedPages MemHigher
    NrTotalPages := MmInit1_NrTotalPages BIOS_MEM_FIX MemHigher }

/-- The highest page-rounded end of a usable entry, in pages (0 without a
usable entry), in the words of the specification. -/
def usableLastPage (Map : List ADDRESS_RANGE) : Nat :=
  ((Map.filter fun e => e.Type_ = 1).map
    fun e => (e.BaseAddrLow + e.LengthLow + PAGE_SIZE - 1) / PAGE_SIZE).foldr max 0

/-- The amount of memory above 1 MiB a firmware map reports, in the words of
the specification: the highest page-rounded end of a usable entry, in pages,
less 256, times 4, and 0 when there is no usable entry or the highest usable
end lies below 1 MiB. -/
def reportedAbove1MiB (Map : List ADDRESS_RANGE) : Nat :=
  (usableLastPage Map - 256) * 4

/-- A firmware map whose only usable entry is the 636 KiB of conventional
memory, followed by a reserved entry. -/
def sampleMapLowOnly : List ADDRESS_RANGE :=
  [ { BaseAddrLow := 0, BaseAddrHigh := 0, LengthLow := 0x9F000, LengthHigh := 0, Type_ := 1 },
    { BaseAddrLow := 0xF0000, BaseAddrHigh := 0, LengthLow := 0x10000, LengthHigh := 0,
      Type_ := 2 } ]

/-- A firmware map without a usable entry. -/
def sampleMapReserved : List ADDRESS_RANGE :=
  [ { BaseAddrLow := 0xF0000, BaseAddrHigh := 0, LengthLow := 0x10000, LengthHigh := 0,
      Type_ := 2 } ]

/-- A firmware map with the single usable range from 0 to 32 MiB. -/
def sampleMap32MiB : List ADDRESS_RANGE :=
  [ { BaseAddrLow := 0, BaseAddrHigh := 0, LengthLow := 0x2000000, LengthHigh := 0,
      Type_ := 1 } ]

/-! ## The kernel address space (`MmInitVirtualMemory`) -/

/-- A section header of the kernel image (`IMAGE_SECTION_HEADER`), with the
members `FindSection` and its callers read; `VirtualSize` is
`Misc.VirtualSize`. -/
structure IMAGE_SECTION_HEADER where
  Name : String
  VirtualAddress : Nat
  VirtualSize : Nat
  deriving DecidableEq, Repr, Inhabited

/-- `FindSection` (mm_mminit_msvc.c:41-55) over the section table of the
image loaded at `KERNEL_BASE`: the first section whose name compares equal,
`none` for `NULL`. -/
def FindSection (Sections : List IMAGE_SECTION_HEADER) (szSeg : String) :
    Option IMAGE_SECTION_HEADER :=
  Sections.find? fun Section => Section.Name = szSeg

/-- `FindSegmentStart` (mm_mminit_msvc.c:57-65); `0` is `NULL`. -/
def FindSegmentStart (Sections : List IMAGE_SECTION_HEADER) (szSeg : String) : Nat :=
  match FindSection Sections szSeg with
  | some Section => addULONG KERNEL_BASE Section.VirtualAddress
  | none => 0

/-- `FindSegmentEnd` (mm_mminit_msvc.c:67-75); `0` is `NULL`. -/
def FindSegmentEnd (Sections : List IMAGE_SECTION_HEADER) (szSeg : String) : Nat :=
  match FindSection Sections szSeg with
  | some Section =>
    addULONG (addULONG KERNEL_BASE Section.VirtualAddress) Section.VirtualSize
  | none => 0

/-- The constants `MmInitVirtualMemory` takes from headers outside the sources
at hand. -/
structure MM_CONSTANTS where
  KPCR_BASE : Nat
  MAXIMUM_PROCESSORS : Nat
  KI_USER_SHARED_DATA : Nat
  MM_KERNEL_MAP_SIZE : Nat
  MM_NONPAGED_POOL_SIZE : Nat
  MM_PAGED_POOL_SIZE : Nat
  deriving DecidableEq, Repr

/-- The kind of a memory area. -/
inductive MEMORY_AREA_TYPE where
  | MEMORY_AREA_SYSTEM
  | MEMORY_AREA_PAGED_POOL
  deriving DecidableEq, Repr

/-- The descriptor variable a call of `MmCreateMemoryArea` fills. -/
inductive MM_DESCRIPTOR where
  | kernel_map_desc
  | kernel_kpcr_desc
  | kernel_mapped_low_mem_desc
  | kernel_text_desc
  | kernel_data_desc
  | kernel_param_desc
  | kernel_pool_desc
  | MiKernelMapDescriptor
  | MiPagedPoolDescriptor
  | kernel_shared_data_desc
  deriving DecidableEq, Repr

/-- What the collaborators of `MmInit1` and `MmInitVirtualMemory` report:
whether `MmCreateMemoryArea` succeeds for a given descriptor variable, whether
`MmRequestPageMemoryConsumer` and `MmCreateVirtualMapping` succeed, and the
address `MmInitializePageList` returns for its four numeric arguments. -/
structure MM_COLLABORATORS where
  MmCreateMemoryArea : MM_DESCRIPTOR → Bool
  MmRequestPageMemoryConsumer : Bool
  MmCreateVirtualMapping : Bool
  MmInitializePageList : Nat → Nat → Nat → Nat → Nat

/-- One call of `MmCreateMemoryArea` on the kernel address space: the
descriptor variable, the kind, the base address and the length handed
over. -/
structure MEMORY_AREA where
  Result : MM_DESCRIPTOR
  Type_ : MEMORY_AREA_TYPE
  BaseAddress : Nat
  Length : Nat
  deriving DecidableEq, Repr

/-- What `MmInitVirtualMemory` leaves behind: the globals it sets, the calls
of `MmCreateMemoryArea` it makes, in order, the last value of its local
`ParamLength`, and whether it ends in `KEBUGCHECK(0)`. -/
structure MM_VIRTUAL_MEMORY where
  MiKernelMapStart : Nat
  MiKernelMapLength : Nat
  MiNonPagedPoolStart : Nat
  MiNonPagedPoolLength : Nat
  MmPagedPoolBase : Nat
  MmPagedPoolSize : Nat
  Areas : List MEMORY_AREA
  ParamLength : Nat
  BugCheck : Bool
  deriving DecidableEq, Repr

/-- `MmInitVirtualMemory` (mm_mminit_msvc.c:124-334) for the kernel image with
the section table `Sections`.  The status `MmCreateMemoryArea` and
`MmRequestPageMemoryConsumer` return is stored at most in `Status` and
overwritten before `Status` is tested; the only test is on the status of
`MmCreateVirtualMapping`.  The calls `MmInitMemoryAreas`, `MiInitKernelMap`,
`MiInitializeNonPagedPool`, `MmInitializePagedPool`, `RtlZeroMemory` and
`MmInitializeMemoryConsumer` act on structures that are not modelled. -/
def MmInitVirtualMemory (K : MM_CONSTANTS) (C : MM_COLLABORATORS)
    (Sections : List IMAGE_SECTION_HEADER) (LastKernelAddress KernelLength : Nat) :
    MM_VIRTUAL_MEMORY :=
  let ParamLength := KernelLength
  let LastKernelAddress := PAGE_ROUND_UP LastKernelAddress
  -- don't change the start of kernel map
  let MiKernelMapStart := addULONG LastKernelAddress PAGE_SIZE
  let MiKernelMapLength := K.MM_KERNEL_MAP_SIZE
  let MiNonPagedPoolStart := addULONG (addULONG MiKernelMapStart MiKernelMapLength) PAGE_SIZE
  let MiNonPagedPoolLength := K.MM_NONPAGED_POOL_SIZE
  let MmPagedPoolBase := addULONG (addULONG MiNonPagedPoolStart MiNonPagedPoolLength) PAGE_SIZE
  let MmPagedPoolSize := K.MM_PAGED_POOL_SIZE
  -- setup the system area descriptor list
  let a0 : MEMORY_AREA :=
    { Result := .kernel_map_desc, Type_ := .MEMORY_AREA_SYSTEM
      BaseAddress := 0xf0000000, Length := 0x400000 }
  let a1 : MEMORY_AREA :=
    { Result := .kernel_kpcr_desc, Type_ := .MEMORY_AREA_SYSTEM
      BaseAddress := K.KPCR_BASE, Length := mulULONG PAGE_SIZE K.MAXIMUM_PROCESSORS }
  let a2 : MEMORY_AREA :=
    { Result := .kernel_mapped_low_mem_desc, Type_ := .MEMORY_AREA_SYSTEM
      BaseAddress := 0xd0000000, Length := 0x100000 }
  let Length := subULONG (PAGE_ROUND_UP (FindSegmentEnd Sections ".text")) KERNEL_BASE
  let ParamLength := subULONG ParamLength Length
  let a3 : MEMORY_AREA :=
    { Result := .kernel_text_desc, Type_ := .MEMORY_AREA_SYSTEM
      BaseAddress := KERNEL_BASE, Length := Length }
  let BaseAddress := PAGE_ROUND_UP (FindSegmentEnd Sections ".text")
  let Length := subULONG (PAGE_ROUND_UP (FindSegmentStart Sections ".reloc")) BaseAddress
  let ParamLength := subULONG ParamLength Length
  let a4 : MEMORY_AREA :=
    { Result := .kernel_data_desc, Type_ := .MEMORY_AREA_SYSTEM
      BaseAddress := BaseAddress, Length := Length }
  let BaseAddress := PAGE_ROUND_UP (FindSegmentStart Sections ".reloc")
  let Length := subULONG LastKernelAddress BaseAddress
  let a5 : MEMORY_AREA :=
    { Result := .kernel_param_desc, Type_ := .MEMORY_AREA_SYSTEM
      BaseAddress := BaseAddress, Length := Length }
  let a6 : MEMORY_AREA :=
    { Result := .kernel_pool_desc, Type_ := .MEMORY_AREA_SYSTEM
      BaseAddress := MiNonPagedPoolStart, Length := MiNonPagedPoolLength }
  let a7 : MEMORY_AREA :=
    { Result := .MiKernelMapDescriptor, Type_ := .MEMORY_AREA_SYSTEM
      BaseAddress := MiKernelMapStart, Length := MiKernelMapLength }
  let a8 : MEMORY_AREA :=
    { Result := .MiPagedPoolDescriptor, Type_ := .MEMORY_AREA_PAGED_POOL
      BaseAddress := MmPagedPoolBase, Length := MmPagedPoolSize }
  -- create the kernel mapping of the user/kernel shared memory
  let a9 : MEMORY_AREA :=
    { Result := .kernel_shared_data_desc, Type_ := .MEMORY_AREA_SYSTEM
      BaseAddress := K.KI_USER_SHARED_DATA, Length := PAGE_SIZE }
  let Status := C.MmCreateVirtualMapping
  { MiKernelMapStart := MiKernelMapStart
    MiKernelMapLength := MiKernelMapLength
    MiNonPagedPoolStart := MiNonPagedPoolStart
    MiNonPagedPoolLength := MiNonPagedPoolLength
    MmPagedPoolBase := MmPagedPoolBase
    MmPagedPoolSize := MmPagedPoolSize
    Areas := [a0, a1, a2, a3, a4, a5, a6, a7, a8, a9]
    ParamLength := ParamLength
    BugCheck := !Status }

/-- The call of `MmCreateMemoryArea` that filled the descriptor variable
`d`. -/
def MM_VIRTUAL_MEMORY.area (r : MM_VIRTUAL_MEMORY) (d : MM_DESCRIPTOR) : Option MEMORY_AREA :=
  r.Areas.find? fun a => a.Result = d

/-- The address `x` lies in the range of the memory area. -/
def MEMORY_AREA.Contains (a : MEMORY_AREA) (x : Nat) : Prop :=
  a.BaseAddress ≤ x ∧ x < a.BaseAddress + a.Length

/-- Rounding up to `PAGE_SIZE`, in the words of the specification. -/
def pageRoundUp (x : Nat) : Nat := (x + PAGE_SIZE - 1) / PAGE_SIZE * PAGE_SIZE

/-- What `MmInit1` leaves behind: the memory sizing and the kernel address
space. -/
structure MM_INIT1 where
  Sizing : MM_SIZING
  VirtualMemory : MM_VIRTUAL_MEMORY
  deriving DecidableEq, Repr

/-- `MmInit1` (mm_mminit_msvc.c:337-514): the memory sizing, the page list
built by the collaborator `MmInitializePageList`, whose result replaces
`LastKernelAddress`, and `MmInitVirtualMemory`.  `MemHigher` is
`KeLoaderBlock.MemHigher` at entry.  The changes of page protection and the
removal of stale mappings act on page tables, which are not modelled. -/
def MmInit1 (BIOS_MEM_FIX : Bool) (K : MM_CONSTANTS) (C : MM_COLLABORATORS)
    (Sections : List IMAGE_SECTION_HEADER) (MemHigher : Nat)
    (FirstKrnlPhysAddr LastKrnlPhysAddr LastKernelAddress : Nat)
    (BIOSMemoryMap : Option (List ADDRESS_RANGE)) (AddressRangeCount MaxMem : Nat) : MM_INIT1 :=
  let Sizing := MmInit1_sizing BIOS_MEM_FIX BIOSMemoryMap AddressRangeCount MaxMem MemHigher
  let LastKernelAddress := C.MmInitializePageList FirstKrnlPhysAddr LastKrnlPhysAddr
    Sizing.NrTotalPages (PAGE_ROUND_UP LastKernelAddress)
  let kernel_len := subULONG LastKrnlPhysAddr FirstKrnlPhysAddr
  { Sizing := Sizing
    VirtualMemory := MmInitVirtualMemory K C Sections LastKernelAddress kernel_len }

/-- The constants of a build for one processor. -/
def sampleConstants : MM_CONSTANTS :=
  { KPCR_BASE := 0xFF000000
    MAXIMUM_PROCESSORS := 1
    KI_USER_SHARED_DATA := 0xFFDF0000
    MM_KERNEL_MAP_SIZE := 0x1000000
    MM_NONPAGED_POOL_SIZE := 0x6400000
    MM_PAGED_POOL_SIZE := 0x6400000 }

/-- Collaborators that all succeed. -/
def sampleCollaborators : MM_COLLABORATORS :=
  { MmCreateMemoryArea := fun _ => true
    MmRequestPageMemoryConsumer := true
    MmCreateVirtualMapping := true
    MmInitializePageList := fun _ _ _ LastKernelAddress => LastKernelAddress }

/-- The section table of an image with a code section of 0x1000 bytes at the
image base, followed by a data section of 0x2000 bytes and the relocations. -/
def sampleSections : List IMAGE_SECTION_HEADER :=
  [ { Name := ".text", VirtualAddress := 0, VirtualSize := 0x1000 },
    { Name := ".data", VirtualAddress := 0x1000, VirtualSize := 0x2000 },
    { Name := ".reloc", VirtualAddress := 0x3000, VirtualSize := 0x800 } ]

/-! ## Locks and the environment pointer table -/

/-- Both locks of the attach engine are free: the dispatcher database lock
and the APC queue lock of the running thread. -/
def LocksFree (s : KSTATE) : Prop :=
  s.DispatcherLock = false ∧ (s.Threads s.CurrentThread).ApcQueueLock = false

instance (s : KSTATE) : Decidable (LocksFree s) := by
  unfold LocksFree; infer_instance

/-- The environment pointer table of the running thread matches its
environment index: in the original environment `ApcStatePointer[Original]`
designates the current APC state and `ApcStatePointer[Attached]` the saved
slot, in the attached environment it is the other way round. -/
def PointerTableConsistent (s : KSTATE) : Prop :=
  ((s.Threads s.CurrentThread).ApcStateIndex = OriginalApcEnvironment ∧
      (s.Threads s.CurrentThread).ApcStatePointer0 = .ThreadApcState s.CurrentThread ∧
      (s.Threads s.CurrentThread).ApcStatePointer1 = .ThreadSavedApcState s.CurrentThread) ∨
    ((s.Threads s.CurrentThread).ApcStateIndex = AttachedApcEnvironment ∧
      (s.Threads s.CurrentThread).ApcStatePointer0 = .ThreadSavedApcState s.CurrentThread ∧
      (s.Threads s.CurrentThread).ApcStatePointer1 = .ThreadApcState s.CurrentThread)

instance (s : KSTATE) : Decidable (PointerTableConsistent s) := by
  unfold PointerTableConsistent; infer_instance

/-- Collaborators of which only `MmCreateVirtualMapping` succeeds: every
`MmCreateMemoryArea` and `MmRequestPageMemoryConsumer` report failure. -/
def sampleCollaboratorsFailing : MM_COLLABORATORS :=
  { MmCreateMemoryArea := fun _ => false
    MmRequestPageMemoryConsumer := false
    MmCreateVirtualMapping := true
    MmInitializePageList := fun _ _ _ LastKernelAddress => LastKernelAddress }

/-- The section table of an image without a section named `.reloc`. -/
def sampleSectionsNoReloc : List IMAGE_SECTION_HEADER :=
  [ { Name := ".text", VirtualAddress := 0, VirtualSize := 0x1000 },
    { Name := ".data", VirtualAddress := 0x1000, VirtualSize := 0x2000 } ]

/-- The section table of an image without a section named `.text`. -/
def sampleSectionsNoText : List IMAGE_SECTION_HEADER :=
  [ { Name := ".data", VirtualAddress := 0x1000, VirtualSize := 0x2000 },
    { Name := ".reloc", VirtualAddress := 0x3000, VirtualSize := 0x800 } ]

/-- The descriptor variables of the four windows `MmInitVirtualMemory`
registers at an address that does not depend on its arguments: the window at
`0xf0000000`, the `KPCR` window, the low memory window at `0xd0000000` and
the shared data page. -/
def MM_DESCRIPTOR.IsFixedWindow : MM_DESCRIPTOR → Bool
  | .kernel_map_desc => true
  | .kernel_kpcr_desc => true
  | .kernel_mapped_low_mem_desc => true
  | .kernel_shared_data_desc => true
  | _ => false

/-- The section table of an image whose `.reloc` section lies before the end
of its `.text` section. -/
def sampleSectionsRelocFirst : List IMAGE_SECTION_HEADER :=
  [ { Name := ".reloc", VirtualAddress := 0, VirtualSize := 0x800 },
    { Name := ".text", VirtualAddress := 0x1000, VirtualSize := 0x1000 } ]

/-! ## Sequences of calls under locks that cannot be taken twice -/

/-- The call as the running thread makes it. -/
def AttachCall.call : AttachCall → KSTATE → Outcome
  | .Attach P => KeAttachProcess P
  | .Detach => KeDetachProcess
  | .StackAttach P b => KeStackAttachProcess P (.Buffer b)
  | .UnstackDetach b => KeUnstackDetachProcess (.Buffer b)

/-- Whether the call reaches `KeAcquireDispatcherDatabaseLock` and
`KeAcquireSpinLockAtDpcLevel`.  `KeAttachProcess` (process.c:141-142),
`KeStackAttachProcess` (237-238) and `KeDetachProcess` (279-280) take both
locks before their first test; `KeUnstackDetachProcess` returns at its test of
the mark `(PKPROCESS)1` (325) and takes them after it (328-329). -/
def AttachCall.takesLocks (s : KSTATE) : AttachCall → Bool
  | .UnstackDetach b => decide ((s.Buffers b).Process ≠ 1)
  | _ => true

/-- How a sequence of calls ends: every call returned, `KEBUGCHECK` stopped
the system, or the call `c` waits for ever for a lock that is held. -/
inductive RunEnd where
  | Done (s : KSTATE)
  | Stop (code : BugCheckCode) (s : KSTATE)
  | Spin (c : AttachCall) (s : KSTATE)

/-- The state a sequence of calls ended in. -/
def RunEnd.state : RunEnd → KSTATE
  | .Done s => s
  | .Stop _ s => s
  | .Spin _ s => s

/-- Whether every call of the sequence returned. -/
def RunEnd.done : RunEnd → Bool
  | .Done _ => true
  | _ => false

/-- The call that waits for ever for a held lock, when there is one. -/
def RunEnd.spinning : RunEnd → Option AttachCall
  | .Spin c _ => some c
  | _ => none

/-- Modelled from the spec: the lock primitives are defined outside the
sources at hand.  The dispatcher lock and the APC queue lock serialize, so a
lock that is held cannot be taken a second time: a call of the running thread
that reaches the two acquires while the dispatcher database lock or the APC
queue lock of the thread is held never gets past them.  Otherwise the call
runs as `process.c` has it, and the next call is made when it returns. -/
def runCalls : KSTATE → List AttachCall → RunEnd
  | s, [] => .Done s
  | s, c :: rest =>
    if c.takesLocks s = true ∧ ¬LocksFree s then .Spin c s
    else
      match c.call s with
      | .Return s1 => runCalls s1 rest
      | .BugCheck code s1 => .Stop code s1

/-- Modelled from the spec: the declaration of `KPROCESS` is outside the
sources at hand.  `process.c` applies `++` and `--` to the member `StackCount`
and never reads it, so a member of `w` bits holds the number of increments
less the number of decrements modulo `2 ^ w`; this is the value of its `w`
bits read as an unsigned number, and it is `0` exactly when the member is
zero, signed or not. -/
def StackCountMember (w : Nat) (StackCount : Int) : Int := StackCount % 2 ^ w

/-- A run of `n` stacked attaches of the running thread to process 200, each
unstacked at once through the buffer it filled. -/
def idlePairs : Nat → List AttachCall
  | 0 => []
  | n + 1 => .StackAttach 200 0 :: .UnstackDetach 0 :: idlePairs n

/-- The calls that bring a `StackCount` member of `w` bits back to zero while
the process is borrowed: `2 ^ w - 1` stacked attaches to process 200, each
unstacked at once, and then `KeAttachProcess` to process 200. -/
def wrapCalls (w : Nat) : List AttachCall := idlePairs (2 ^ w - 1) ++ [.Attach 200]

/-- The running thread is in its original environment, bound to process 100,
outside a DPC, with both locks free, and process 200 has stack count `n`. -/
def IdleAt (s : KSTATE) (n : Int) : Prop :=
  s.CurrentThread = 0 ∧
  (s.Threads 0).ApcStateIndex = OriginalApcEnvironment ∧
  (s.Threads 0).ApcState.Process = 100 ∧
  s.ExecutingDpc = false ∧
  s.DispatcherLock = false ∧ (s.Threads 0).ApcQueueLock = false ∧
  (s.Processes 200).StackCount = n

/-! ## Attach and detach: round trips -/

/-- A store into a process control block that keeps its directory table base
leaves every directory table base as it is. -/
theorem DirectoryTableBase_update (f : PKPROCESS → KPROCESS) (P Q : PKPROCESS)
    (r : KPROCESS) (h : r.DirectoryTableBase = (f P).DirectoryTableBase) :
    (Function.update f P r Q).DirectoryTableBase = (f Q).DirectoryTableBase := by
  by_cases hQ : Q = P
  · subst hQ; simp [h]
  · simp [hQ]

/-- Nested round trip where the code supports it.  For a thread in the
original environment, outside a DPC, with both locks free, whose page table
register holds the directory table base of the process its APC state is bound
to, for a process `P1` (a real process address) other than the thread's own,
a process `P2` other than `P1` and two distinct buffers,
`KeStackAttachProcess(P1, b1)`, `KeStackAttachProcess(P2, b2)`,
`KeUnstackDetachProcess(b2)`, `KeUnstackDetachProcess(b1)` each find the
locks free and return with the locks free; after the first unstack the thread
is bound to the process it was bound to after the first stack attach, and at
the end the thread is in the original environment with the APC state and page
table register it started with. -/
theorem nested_stack_attach_round_trip (s : KSTATE) (P1 P2 : PKPROCESS) (b1 b2 : Nat)
    (hEnv : (s.Threads s.CurrentThread).ApcStateIndex = OriginalApcEnvironment)
    (hDpc : KeIsExecutingDpc s = false)
    (hCr3 : s.Cr3 =
      LowPart (s.Processes (s.Threads s.CurrentThread).ApcState.Process).DirectoryTableBase)
    (hLocks : LocksFree s)
    (hP1 : IsProcess P1) (hOwn : P1 ≠ (s.Threads s.CurrentThread).ApcState.Process)
    (hP2 : P2 ≠ P1) (hb : b1 ≠ b2) :
    ∃ s1 s2 s3 s4,
      KeStackAttachProcess P1 (.Buffer b1) s = .Return s1 ∧
      KeStackAttachProcess P2 (.Buffer b2) s1 = .Return s2 ∧
      KeUnstackDetachProcess (.Buffer b2) s2 = .Return s3 ∧
      KeUnstackDetachProcess (.Buffer b1) s3 = .Return s4 ∧
      (LocksFree s1 ∧ LocksFree s2 ∧ LocksFree s3 ∧ LocksFree s4) ∧
      runCalls s [.StackAttach P1 b1, .StackAttach P2 b2, .UnstackDetach b2,
        .UnstackDetach b1] = .Done s4 ∧
      (s3.Threads s.CurrentThread).ApcState.Process =
        (s1.Threads s.CurrentThread).ApcState.Process ∧
      s4.CurrentThread = s.CurrentThread ∧
      (s4.Threads s.CurrentThread).ApcStateIndex = OriginalApcEnvironment ∧
      (s4.Threads s.CurrentThread).ApcState = (s.Threads s.CurrentThread).ApcState ∧
      s4.Cr3 = s.Cr3 := by
  simp only [KeIsExecutingDpc] at hDpc
  obtain ⟨h0, h1⟩ := hP1
  obtain ⟨l0, l1⟩ := hLocks
  refine ⟨(KeStackAttachProcess P1 (.Buffer b1) s).state,
    (KeStackAttachProcess P2 (.Buffer b2) (KeStackAttachProcess P1 (.Buffer b1) s).state).state,
    (KeUnstackDetachProcess (.Buffer b2) (KeStackAttachProcess P2 (.Buffer b2)
      (KeStackAttachProcess P1 (.Buffer b1) s).state).state).state,
    (KeUnstackDetachProcess (.Buffer b1) (KeUnstackDetachProcess (.Buffer b2)
      (KeStackAttachProcess P2 (.Buffer b2)
        (KeStackAttachProcess P1 (.Buffer b1) s).state).state).state).state, ?_⟩
  simp [KeStackAttachProcess, KeUnstackDetachProcess, KiAttachProcess, KiSwapProcess,
    KiMoveApcState, KeGetCurrentThread, KeIsExecutingDpc, KeAcquireDispatcherDatabaseLock,
    KeReleaseDispatcherDatabaseLock, KeAcquireSpinLockAtDpcLevel,
    KeReleaseSpinLockFromDpcLevel, Ke386SetPageTableDirectory, setThread, setProcess,
    readApcState, writeApcState, writeApcStateProcess, hEnv, hDpc, OriginalApcEnvironment,
    Outcome.state, AttachedApcEnvironment, hb, Ne.symm hb, h0, h1, hOwn, Ne.symm hOwn, hP2,
    Ne.symm hP2, DirectoryTableBase_update, runCalls, AttachCall.call, AttachCall.takesLocks,
    LocksFree, l0, l1]
  exact hCr3.symm

/-- The nested round trip on `sampleState` with the processes 200 and 300 and
the buffers 0 and 1. -/
theorem nested_stack_attach_round_trip_witness :
    ∃ s1 s2 s3 s4,
      KeStackAttachProcess 200 (.Buffer 0) sampleState = .Return s1 ∧
      KeStackAttachProcess 300 (.Buffer 1) s1 = .Return s2 ∧
      KeUnstackDetachProcess (.Buffer 1) s2 = .Return s3 ∧
      KeUnstackDetachProcess (.Buffer 0) s3 = .Return s4 ∧
      (LocksFree s1 ∧ LocksFree s2 ∧ LocksFree s3 ∧ LocksFree s4) ∧
      runCalls sampleState [.StackAttach 200 0, .StackAttach 300 1, .UnstackDetach 1,
        .UnstackDetach 0] = .Done s4 ∧
      (s3.Threads sampleState.CurrentThread).ApcState.Process =
        (s1.Threads sampleState.CurrentThread).ApcState.Process ∧
      s4.CurrentThread = sampleState.CurrentThread ∧
      (s4.Threads sampleState.CurrentThread).ApcStateIndex = OriginalApcEnvironment ∧
      (s4.Threads sampleState.CurrentThread).ApcState =
        (sampleState.Threads sampleState.CurrentThread).ApcState ∧
      s4.Cr3 = sampleState.Cr3 :=
  nested_stack_attach_round_trip sampleState 200 300 0 1 (by decide) (by decide) (by decide)
    (by decide) (by decide) (by decide) (by decide) (by decide)

/-- C2 (the code departs from the claim). `sampleState` has its thread in the
original environment on its own process 100, outside a DPC, with no kernel
APC in progress, the page table register on process 100 and both locks free.
With `P1` the thread's own process, `KeStackAttachProcess(100, buf1)` returns
with the dispatcher database lock and the APC queue lock still held, and
`KeStackAttachProcess(200, buf2)` waits for ever for them: the sequence does
not end.  With `P1 = P2 = 200` the second stacked attach returns with both
locks held, the first unstack returns at its test of the mark, and the second
unstack waits for ever with the thread still attached.  With the distinct
processes 200 and 300 every call returns. -/
theorem nested_stack_attach_spins_at_sample :
    (sampleState.Threads sampleState.CurrentThread).ApcStateIndex = OriginalApcEnvironment ∧
      KeIsExecutingDpc sampleState = false ∧
      (sampleState.Threads sampleState.CurrentThread).ApcState.KernelApcInProgress = false ∧
      (sampleState.Threads sampleState.CurrentThread).ApcState.Process = 100 ∧
      sampleState.Cr3 = LowPart (sampleState.Processes 100).DirectoryTableBase ∧
      LocksFree sampleState ∧
      (KeStackAttachProcess 100 (.Buffer 0) sampleState).returned = true ∧
      ¬LocksFree (KeStackAttachProcess 100 (.Buffer 0) sampleState).state ∧
      (runCalls sampleState [.StackAttach 100 0, .StackAttach 200 1, .UnstackDetach 1,
        .UnstackDetach 0]).spinning = some (.StackAttach 200 1) ∧
      (runCalls sampleState [.StackAttach 100 0, .StackAttach 200 1, .UnstackDetach 1,
        .UnstackDetach 0]).state.DispatcherLock = true ∧
      (runCalls sampleState [.StackAttach 200 0, .StackAttach 200 1, .UnstackDetach 1,
        .UnstackDetach 0]).spinning = some (.UnstackDetach 0) ∧
      (runCalls sampleState [.StackAttach 200 0, .StackAttach 200 1, .UnstackDetach 1,
        .UnstackDetach 0]).state.DispatcherLock = true ∧
      ((runCalls sampleState [.StackAttach 200 0, .StackAttach 200 1, .UnstackDetach 1,
        .UnstackDetach 0]).state.Threads 0).ApcStateIndex = AttachedApcEnvironment ∧
      (runCalls sampleState [.StackAttach 200 0, .StackAttach 300 1, .UnstackDetach 1,
        .UnstackDetach 0]).done = true := by
  decide

/-! ## Stack counts across a stacked attach -/

/-- A stacked attach to a foreign process followed by the matching unstack
leaves the stack count of that process one higher than it was:
`KeUnstackDetachProcess` has no decrement. -/
theorem KeUnstackDetachProcess_keeps_StackCount_raised (s : KSTATE) (P : PKPROCESS) (b : Nat)
    (hEnv : (s.Threads s.CurrentThread).ApcStateIndex = OriginalApcEnvironment)
    (hDpc : KeIsExecutingDpc s = false)
    (hP : P ≠ (s.Threads s.CurrentThread).ApcState.Process) :
    ∃ s', (KeStackAttachProcess P (.Buffer b) s).andThen
        (KeUnstackDetachProcess (.Buffer b)) = .Return s' ∧
      (s'.Threads s.CurrentThread).ApcStateIndex = OriginalApcEnvironment ∧
      (s'.Threads s.CurrentThread).ApcState = (s.Threads s.CurrentThread).ApcState ∧
      (s'.Processes P).StackCount = (s.Processes P).StackCount + 1 := by
  simp only [KeIsExecutingDpc] at hDpc
  simp [KeStackAttachProcess, KeUnstackDetachProcess, KiAttachProcess, KiSwapProcess,
    KiMoveApcState, Outcome.andThen, KeGetCurrentThread, KeIsExecutingDpc,
    KeAcquireDispatcherDatabaseLock, KeReleaseDispatcherDatabaseLock,
    KeAcquireSpinLockAtDpcLevel, KeReleaseSpinLockFromDpcLevel, Ke386SetPageTableDirectory,
    setThread, setProcess, readApcState, writeApcState, writeApcStateProcess, hEnv, hDpc, hP,
    Ne.symm hP, OriginalApcEnvironment, AttachedApcEnvironment]

/-- C3 (the code departs from the claim). On `sampleState` the thread is in
the original environment, outside a DPC, and process 200 is not its own;
`KeStackAttachProcess(200, buf)` followed by `KeUnstackDetachProcess(buf)`
returns with the thread back in the original environment, bound to its own
process 100, so no context of the thread borrows process 200 any more, yet
the stack count of process 200 is 1 where it was 0 before. -/
theorem stack_attach_unstack_StackCount_at_sample :
    (sampleState.Threads sampleState.CurrentThread).ApcStateIndex = OriginalApcEnvironment ∧
      KeIsExecutingDpc sampleState = false ∧
      (sampleState.Threads sampleState.CurrentThread).ApcState.Process = 100 ∧
      ((KeStackAttachProcess 200 (.Buffer 0) sampleState).andThen
        (KeUnstackDetachProcess (.Buffer 0))).returned = true ∧
      (((KeStackAttachProcess 200 (.Buffer 0) sampleState).andThen
        (KeUnstackDetachProcess (.Buffer 0))).state.Threads 0).ApcStateIndex =
          OriginalApcEnvironment ∧
      (((KeStackAttachProcess 200 (.Buffer 0) sampleState).andThen
        (KeUnstackDetachProcess (.Buffer 0))).state.Threads 0).ApcState.Process = 100 ∧
      (sampleState.Processes 200).StackCount = 0 ∧
      (((KeStackAttachProcess 200 (.Buffer 0) sampleState).andThen
        (KeUnstackDetachProcess (.Buffer 0))).state.Processes 200).StackCount = 1 := by
  decide

/-! ## Stack counts never go negative -/

/-- The effect of a returning `KeAttachProcess` on the borrower count of the
calling thread: it rises by no more than the stack count does. -/
theorem step_Attach_local (h h1 : History) (t : Nat) (Q : PKPROCESS)
    (hs : h.step t (.Attach Q) = some h1) :
    (∀ u, u ≠ t → h1.Machine.Threads u = h.Machine.Threads u) ∧
    h1.Machine.Buffers = h.Machine.Buffers ∧ h1.Filled = h.Filled ∧
    ∀ P, threadToken h1 P t - threadToken h P t ≤
      (h1.Machine.Processes P).StackCount - (h.Machine.Processes P).StackCount := by
  simp only [History.step, dispatch] at hs
  by_cases hd : h.Machine.ExecutingDpc = true
  · simp [KeAttachProcess, KeIsExecutingDpc, KeAcquireDispatcherDatabaseLock,
      KeAcquireSpinLockAtDpcLevel, setThread, hd, Outcome.toOption] at hs
  · simp only [Bool.not_eq_true] at hd
    by_cases c1 : (h.Machine.Threads t).ApcState.Process = Q ∨
        (h.Machine.Threads t).ApcStateIndex ≠ OriginalApcEnvironment
    · simp only [KeAttachProcess, KeIsExecutingDpc, KeGetCurrentThread,
        KeAcquireDispatcherDatabaseLock, KeAcquireSpinLockAtDpcLevel,
        KeReleaseSpinLockFromDpcLevel, KeReleaseDispatcherDatabaseLock, setThread,
        Function.update_same, hd, c1, Outcome.toOption, Option.map_some', Option.some.injEq,
        if_true, Bool.false_eq_true, if_false] at hs
      subst hs
      refine ⟨fun u hu => ?_, rfl, rfl, fun P => ?_⟩
      · simp [hu]
      · simp [threadToken]
    · have c2 : (h.Machine.Threads t).ApcState.Process ≠ Q := fun e => c1 (Or.inl e)
      have c3 : (h.Machine.Threads t).ApcStateIndex = 0 := by
        by_contra e; exact c1 (Or.inr e)
      simp only [KeAttachProcess, KiAttachProcess, KiSwapProcess, KiMoveApcState,
        KeIsExecutingDpc, KeGetCurrentThread, Ke386SetPageTableDirectory,
        KeAcquireDispatcherDatabaseLock, KeAcquireSpinLockAtDpcLevel,
        KeReleaseSpinLockFromDpcLevel, KeReleaseDispatcherDatabaseLock, setThread, setProcess,
        readApcState, writeApcState,
        Function.update_same, hd, c1, Outcome.toOption, Option.map_some', Option.some.injEq,
        if_true, Bool.false_eq_true, if_false] at hs
      subst hs
      refine ⟨fun u hu => ?_, rfl, rfl, fun P => ?_⟩
      · simp [hu]
      · by_cases hP : P = Q
        · subst hP
          simp [threadToken, c3, OriginalApcEnvironment, AttachedApcEnvironment]
        · simp [threadToken, c3, OriginalApcEnvironment, AttachedApcEnvironment, hP, Ne.symm hP]

/-- The effect of a returning `KeDetachProcess`: the stack count it takes
away belongs to the process the calling thread stops borrowing. -/
theorem step_Detach_local (h h1 : History) (t : Nat)
    (hs : h.step t .Detach = some h1) :
    (∀ u, u ≠ t → h1.Machine.Threads u = h.Machine.Threads u) ∧
    h1.Machine.Buffers = h.Machine.Buffers ∧ h1.Filled = h.Filled ∧
    ∀ P, threadToken h1 P t - threadToken h P t ≤
      (h1.Machine.Processes P).StackCount - (h.Machine.Processes P).StackCount := by
  simp only [History.step, dispatch] at hs
  by_cases c1 : (h.Machine.Threads t).ApcStateIndex = 0
  · simp [KeDetachProcess, KeGetCurrentThread, KeAcquireDispatcherDatabaseLock,
      KeAcquireSpinLockAtDpcLevel, setThread, c1, Outcome.toOption, OriginalApcEnvironment] at hs
  · simp [KeDetachProcess, KiSwapProcess, KiMoveApcState,
      KeGetCurrentThread, Ke386SetPageTableDirectory,
      KeAcquireDispatcherDatabaseLock, KeAcquireSpinLockAtDpcLevel,
      KeReleaseSpinLockFromDpcLevel, KeReleaseDispatcherDatabaseLock, setThread, setProcess,
      readApcState, writeApcState, writeApcStateProcess,
      c1, Outcome.toOption, OriginalApcEnvironment] at hs
    subst hs
    refine ⟨fun u hu => ?_, rfl, rfl, fun P => ?_⟩
    · simp [hu]
    · by_cases hP : P = (h.Machine.Threads t).ApcState.Process
      · subst hP
        simp [threadToken, c1, OriginalApcEnvironment]
      · simp [threadToken, c1, OriginalApcEnvironment, hP, Ne.symm hP]

/-- The effect of a returning `KeStackAttachProcess` on the calling thread
and on the buffer it fills. -/
theorem step_StackAttach_local (h h1 : History) (t : Nat) (Q : PKPROCESS) (b : Nat)
    (hs : h.step t (.StackAttach Q b) = some h1) :
    (∀ u, u ≠ t → h1.Machine.Threads u = h.Machine.Threads u) ∧
    (∀ a, a ≠ b → h1.Machine.Buffers a = h.Machine.Buffers a ∧ h1.Filled a = h.Filled a) ∧
    ∀ P, threadToken h1 P t - threadToken h P t + (bufferToken h1 P b - bufferToken h P b) ≤
      (h1.Machine.Processes P).StackCount - (h.Machine.Processes P).StackCount := by
  simp only [History.step, dispatch] at hs
  have hB : ∀ P, 0 ≤ bufferToken h P b := by
    intro P; unfold bufferToken; split_ifs <;> simp
  by_cases hd : h.Machine.ExecutingDpc = true
  · simp [KeStackAttachProcess, KeIsExecutingDpc, KeAcquireDispatcherDatabaseLock,
      KeAcquireSpinLockAtDpcLevel, setThread, hd, Outcome.toOption] at hs
  · simp only [Bool.not_eq_true] at hd
    by_cases c1 : (h.Machine.Threads t).ApcState.Process = Q
    · simp [KeStackAttachProcess, KeIsExecutingDpc, KeGetCurrentThread,
        KeAcquireDispatcherDatabaseLock, KeAcquireSpinLockAtDpcLevel, setThread,
        readApcState, writeApcState, writeApcStateProcess,
        hd, c1, Outcome.toOption] at hs
      subst hs
      refine ⟨fun u hu => ?_, fun a ha => ?_, fun P => ?_⟩
      · simp [hu]
      · simp [ha]
      · simp [threadToken, bufferToken]
        split_ifs <;> first | omega | tauto
    · by_cases c2 : (h.Machine.Threads t).ApcStateIndex = 0
      · simp [KeStackAttachProcess, KiAttachProcess, KiSwapProcess, KiMoveApcState,
          KeIsExecutingDpc, KeGetCurrentThread, Ke386SetPageTableDirectory,
          KeAcquireDispatcherDatabaseLock, KeAcquireSpinLockAtDpcLevel,
          KeReleaseSpinLockFromDpcLevel, KeReleaseDispatcherDatabaseLock, setThread, setProcess,
          readApcState, writeApcState, writeApcStateProcess, OriginalApcEnvironment,
          AttachedApcEnvironment, hd, c1, c2, Outcome.toOption] at hs
        subst hs
        refine ⟨fun u hu => ?_, fun a ha => ?_, fun P => ?_⟩
        · simp [hu]
        · simp [ha]
        · by_cases hP : P = Q
          · subst hP
            simp [threadToken, bufferToken, c1, c2, OriginalApcEnvironment]
            split_ifs <;> first | omega | tauto
          · simp [threadToken, bufferToken, c1, c2, OriginalApcEnvironment, hP, Ne.symm hP]
            split_ifs <;> first | omega | tauto
      · simp [KeStackAttachProcess, KiAttachProcess, KiSwapProcess, KiMoveApcState,
          KeIsExecutingDpc, KeGetCurrentThread, Ke386SetPageTableDirectory,
          KeAcquireDispatcherDatabaseLock, KeAcquireSpinLockAtDpcLevel,
          KeReleaseSpinLockFromDpcLevel, KeReleaseDispatcherDatabaseLock, setThread, setProcess,
          readApcState, writeApcState, writeApcStateProcess, OriginalApcEnvironment,
          AttachedApcEnvironment, hd, c1, c2, Outcome.toOption] at hs
        subst hs
        refine ⟨fun u hu => ?_, fun a ha => ?_, fun P => ?_⟩
        · simp [hu]
        · simp [ha]
        · by_cases hP : P = Q
          · subst hP
            simp [threadToken, bufferToken, c1, c2, OriginalApcEnvironment]
            split_ifs <;> omega
          · simp [threadToken, bufferToken, c1, c2, OriginalApcEnvironment, hP, Ne.symm hP]
            split_ifs <;> first | omega | tauto

/-- The effect of a returning `KeUnstackDetachProcess` on the calling thread
and on the buffer it uses up. -/
theorem step_UnstackDetach_local (h h1 : History) (t : Nat) (b : Nat)
    (hs : h.step t (.UnstackDetach b) = some h1) :
    (∀ u, u ≠ t → h1.Machine.Threads u = h.Machine.Threads u) ∧
    (∀ a, a ≠ b → h1.Machine.Buffers a = h.Machine.Buffers a ∧ h1.Filled a = h.Filled a) ∧
    ∀ P, threadToken h1 P t - threadToken h P t + (bufferToken h1 P b - bufferToken h P b) ≤
      (h1.Machine.Processes P).StackCount - (h.Machine.Processes P).StackCount := by
  simp only [History.step, dispatch] at hs
  by_cases hf : h.Filled b = some t
  · by_cases c1 : (h.Machine.Buffers b).Process = 1
    · simp [KeUnstackDetachProcess, readApcState, hf, c1, Outcome.toOption] at hs
      subst hs
      refine ⟨fun u hu => ?_, fun a ha => ?_, fun P => ?_⟩
      · simp
      · simp [ha]
      · simp [threadToken, bufferToken, c1]
        split_ifs <;> omega
    · by_cases c2 : (h.Machine.Threads t).ApcStateIndex = 0 ∨
          (h.Machine.Threads t).ApcState.KernelApcInProgress = true
      · simp [KeUnstackDetachProcess, KeGetCurrentThread, KeAcquireDispatcherDatabaseLock,
          KeAcquireSpinLockAtDpcLevel, setThread, readApcState, hf, c1, c2, Outcome.toOption,
          OriginalApcEnvironment] at hs
      · have c3 : (h.Machine.Threads t).ApcStateIndex ≠ 0 := fun e => c2 (Or.inl e)
        have c4 : (h.Machine.Threads t).ApcState.KernelApcInProgress = false := by
          cases e : (h.Machine.Threads t).ApcState.KernelApcInProgress
          · rfl
          · exact absurd (Or.inr e) c2
        by_cases c5 : (h.Machine.Buffers b).Process = 0
        · simp [KeUnstackDetachProcess, KiSwapProcess, KiMoveApcState, KeGetCurrentThread,
            Ke386SetPageTableDirectory, KeAcquireDispatcherDatabaseLock,
            KeAcquireSpinLockAtDpcLevel, KeReleaseSpinLockFromDpcLevel,
            KeReleaseDispatcherDatabaseLock, setThread, readApcState, writeApcState,
            writeApcStateProcess, OriginalApcEnvironment, hf, c1, c3, c4, c5,
            Outcome.toOption] at hs
          subst hs
          refine ⟨fun u hu => ?_, fun a ha => ?_, fun P => ?_⟩
          · simp [hu]
          · simp [ha]
          · simp [threadToken, bufferToken, c3, c5, OriginalApcEnvironment]
            split_ifs <;> omega
        · simp [KeUnstackDetachProcess, KiSwapProcess, KiMoveApcState, KeGetCurrentThread,
            Ke386SetPageTableDirectory, KeAcquireDispatcherDatabaseLock,
            KeAcquireSpinLockAtDpcLevel, KeReleaseSpinLockFromDpcLevel,
            KeReleaseDispatcherDatabaseLock, setThread, readApcState, writeApcState,
            writeApcStateProcess, OriginalApcEnvironment, hf, c1, c3, c4, c5,
            Outcome.toOption] at hs
          subst hs
          refine ⟨fun u hu => ?_, fun a ha => ?_, fun P => ?_⟩
          · simp [hu]
          · simp [ha]
          · simp [threadToken, bufferToken, c3, c5, hf, OriginalApcEnvironment]
            split_ifs <;> first | omega | tauto | aesop
  · simp [hf] at hs

/-- A sum over `range N` of a function changed at one place `k`. -/
theorem sum_range_change (N : Nat) (f g : Nat → Int) (k : Nat) (hk : k < N)
    (hfg : ∀ i, i ≠ k → g i = f i) :
    (Finset.range N).sum g = (Finset.range N).sum f + (g k - f k) := by
  have h1 := Finset.add_sum_erase (Finset.range N) f (Finset.mem_range.2 hk)
  have h2 := Finset.add_sum_erase (Finset.range N) g (Finset.mem_range.2 hk)
  have h3 : ((Finset.range N).erase k).sum g = ((Finset.range N).erase k).sum f :=
    Finset.sum_congr rfl (fun i hi => hfg i (Finset.ne_of_mem_erase hi))
  rw [← h1, ← h2, h3]
  ring

/-- Terms that vanish from `N` on do not add to a sum over `range M`. -/
theorem sum_range_extend (N M : Nat) (f : Nat → Int) (hNM : N ≤ M)
    (hz : ∀ i, N ≤ i → f i = 0) :
    (Finset.range M).sum f = (Finset.range N).sum f := by
  symm
  apply Finset.sum_subset (Finset.range_subset.2 hNM)
  intro i _ hni
  apply hz
  simp only [Finset.mem_range, not_lt] at hni
  exact hni

/-- A thread counts for zero or one. -/
theorem threadToken_nonneg (h : History) (P : PKPROCESS) (t : Nat) : 0 ≤ threadToken h P t := by
  unfold threadToken; split_ifs <;> simp

/-- A buffer counts for zero or one. -/
theorem bufferToken_nonneg (h : History) (P : PKPROCESS) (b : Nat) : 0 ≤ bufferToken h P b := by
  unfold bufferToken; split_ifs <;> simp

/-- The number of borrowers is not negative. -/
theorem borrowers_nonneg (h : History) (N : Nat) (P : PKPROCESS) : 0 ≤ borrowers h N P := by
  unfold borrowers
  have h1 := Finset.sum_nonneg (fun t (_ : t ∈ Finset.range N) => threadToken_nonneg h P t)
  have h2 := Finset.sum_nonneg (fun b (_ : b ∈ Finset.range N) => bufferToken_nonneg h P b)
  omega

/-- The bound `N` of `Accounted` can be raised. -/
theorem Accounted_mono {N M : Nat} {h : History} (hNM : N ≤ M) (ha : Accounted N h) :
    Accounted M h := by
  obtain ⟨hT, hF, hC⟩ := ha
  refine ⟨fun t ht => hT t (le_trans hNM ht), fun b hb => hF b (le_trans hNM hb), fun P => ?_⟩
  have e1 : (Finset.range M).sum (fun t => threadToken h P t) =
      (Finset.range N).sum (fun t => threadToken h P t) :=
    sum_range_extend N M _ hNM (fun i hi => by simp [threadToken, hT i hi])
  have e2 : (Finset.range M).sum (fun b => bufferToken h P b) =
      (Finset.range N).sum (fun b => bufferToken h P b) :=
    sum_range_extend N M _ hNM (fun i hi => by simp [bufferToken, hF i hi])
  have := hC P
  unfold borrowers at this ⊢
  omega

/-- Any returning call changes one thread and at most one buffer, and the
borrowers it adds are matched by the stack counts it raises. -/
theorem step_local (h h1 : History) (t : Nat) (c : AttachCall) (hs : h.step t c = some h1) :
    ∃ b, (∀ u, u ≠ t → h1.Machine.Threads u = h.Machine.Threads u) ∧
      (∀ a, a ≠ b → h1.Machine.Buffers a = h.Machine.Buffers a ∧ h1.Filled a = h.Filled a) ∧
      ∀ P, threadToken h1 P t - threadToken h P t +
          (bufferToken h1 P b - bufferToken h P b) ≤
        (h1.Machine.Processes P).StackCount - (h.Machine.Processes P).StackCount := by
  cases c with
  | Attach Q =>
    obtain ⟨hT, hB, hF, hC⟩ := step_Attach_local h h1 t Q hs
    refine ⟨0, hT, fun a _ => ⟨by rw [hB], by rw [hF]⟩, fun P => ?_⟩
    have := hC P
    simp only [bufferToken, hB, hF]
    omega
  | Detach =>
    obtain ⟨hT, hB, hF, hC⟩ := step_Detach_local h h1 t hs
    refine ⟨0, hT, fun a _ => ⟨by rw [hB], by rw [hF]⟩, fun P => ?_⟩
    have := hC P
    simp only [bufferToken, hB, hF]
    omega
  | StackAttach Q b => exact ⟨b, step_StackAttach_local h h1 t Q b hs⟩
  | UnstackDetach b => exact ⟨b, step_UnstackDetach_local h h1 t b hs⟩

/-- One call keeps every borrower paid for. -/
theorem Accounted_step {N : Nat} {h h1 : History} (ha : Accounted N h) (t : Nat)
    (c : AttachCall) (hs : h.step t c = some h1) : ∃ M, Accounted M h1 := by
  obtain ⟨b, hT, hB, hC⟩ := step_local h h1 t c hs
  obtain ⟨aT, aF, aC⟩ := Accounted_mono (le_max_left N (max (t + 1) (b + 1))) ha
  have ht : t < max N (max (t + 1) (b + 1)) := by omega
  have hb : b < max N (max (t + 1) (b + 1)) := by omega
  refine ⟨max N (max (t + 1) (b + 1)), fun u hu => ?_, fun a ha1 => ?_, fun P => ?_⟩
  · rw [hT u (by omega)]; exact aT u hu
  · rw [(hB a (by omega)).2]; exact aF a ha1
  · have e1 := sum_range_change _ (fun u => threadToken h P u) (fun u => threadToken h1 P u) t ht
      (fun u hu => by simp only [threadToken, hT u hu])
    have e2 := sum_range_change _ (fun a => bufferToken h P a) (fun a => bufferToken h1 P a) b hb
      (fun a ha1 => by simp only [bufferToken, (hB a ha1).1, (hB a ha1).2])
    have e3 := hC P
    have e4 := aC P
    unfold borrowers at e4 ⊢
    simp only at e1 e2
    omega

/-- A sequence of calls keeps every borrower paid for. -/
theorem Accounted_run (calls : List (Nat × AttachCall)) :
    ∀ (h h1 : History) (N : Nat), Accounted N h → h.run calls = some h1 →
      ∃ M, Accounted M h1 := by
  induction calls with
  | nil =>
    intro h h1 N ha hr
    simp only [History.run, Option.some.injEq] at hr
    subst hr
    exact ⟨N, ha⟩
  | cons tc rest ih =>
    intro h h1 N ha hr
    obtain ⟨t, c⟩ := tc
    simp only [History.run] at hr
    cases hs : h.step t c with
    | none => simp [hs] at hr
    | some h2 =>
      rw [hs] at hr
      obtain ⟨M, hM⟩ := Accounted_step ha t c hs
      exact ih h2 h1 M hM hr

/-- More increments than decrements.  Start from a state in which every
thread is in the original environment and every stack count is 0, and let
threads make calls of `KeAttachProcess`, `KeDetachProcess`,
`KeStackAttachProcess` and `KeUnstackDetachProcess`, one at a time, none
ending in a system stop, each `KeUnstackDetachProcess` on a buffer filled by
an earlier `KeStackAttachProcess` of the same thread and not unstacked
since.  Then after any number `k` of the calls no process has had more
decrements applied to its stack count than increments.  This is about the
number of increments less the number of decrements; a member of fixed width
wraps, see `StackCount_wraps`. -/
theorem StackCount_nonneg (s0 : KSTATE)
    (hOrig : ∀ t, (s0.Threads t).ApcStateIndex = OriginalApcEnvironment)
    (hZero : ∀ P, (s0.Processes P).StackCount = 0)
    (calls : List (Nat × AttachCall)) (k : Nat) (h : History)
    (hrun : (History.start s0).run (calls.take k) = some h) (P : PKPROCESS) :
    0 ≤ (h.Machine.Processes P).StackCount := by
  have h0 : Accounted 0 (History.start s0) :=
    ⟨fun t _ => hOrig t, fun _ _ => rfl, fun Q => by simp [borrowers, History.start, hZero]⟩
  obtain ⟨M, _, _, hC⟩ := Accounted_run (calls.take k) _ h 0 h0 hrun
  exact le_trans (borrowers_nonneg h M P) (hC P)

/-- The four calls of `sampleCalls` from `sampleState` keep the count of
increments less decrements of process 200 at or above 0. -/
theorem StackCount_nonneg_witness :
    ∃ h, (History.start sampleState).run (sampleCalls.take 4) = some h ∧
      0 ≤ (h.Machine.Processes 200).StackCount := by
  have hs : ((History.start sampleState).run (sampleCalls.take 4)).isSome = true := by decide
  obtain ⟨h, hh⟩ := Option.isSome_iff_exists.1 hs
  exact ⟨h, hh, StackCount_nonneg sampleState (fun _ => rfl) (fun _ => rfl) sampleCalls 4 h hh 200⟩

/-! ## Stack counts of fixed width -/

/-- A call made by the thread that is already running is made in the state
as it is. -/
theorem dispatch_self (s : KSTATE) (t : Nat) (h : s.CurrentThread = t) : dispatch t s = s := by
  subst h; rfl

/-- One stacked attach of the idle thread to process 200 and the unstack that
follows it: both calls find the locks free and return, the thread is idle
again, and the stack count of process 200 is one higher. -/
theorem idlePair_step (s : KSTATE) (n : Int) (h : IdleAt s n) :
    ∃ s1 s2, KeStackAttachProcess 200 (.Buffer 0) s = .Return s1 ∧ LocksFree s1 ∧
      KeUnstackDetachProcess (.Buffer 0) s1 = .Return s2 ∧ IdleAt s2 (n + 1) := by
  obtain ⟨hc, hi, hp, hd, l0, l1, hn⟩ := h
  refine ⟨(KeStackAttachProcess 200 (.Buffer 0) s).state,
    (KeUnstackDetachProcess (.Buffer 0) (KeStackAttachProcess 200 (.Buffer 0) s).state).state,
    ?_⟩
  simp [KeStackAttachProcess, KeUnstackDetachProcess, KiAttachProcess, KiSwapProcess,
    KiMoveApcState, KeGetCurrentThread, KeIsExecutingDpc, KeAcquireDispatcherDatabaseLock,
    KeReleaseDispatcherDatabaseLock, KeAcquireSpinLockAtDpcLevel,
    KeReleaseSpinLockFromDpcLevel, Ke386SetPageTableDirectory, setThread, setProcess,
    readApcState, writeApcState, writeApcStateProcess, OriginalApcEnvironment,
    Outcome.state, AttachedApcEnvironment, LocksFree, IdleAt, hc, hi, hp, hd, l0, l1, hn]

/-- The calls of `idlePairs n`, made by thread 0, keep to the use of caller
buffers a history asks for: each unstack is handed the buffer the stacked
attach before it filled, and buffer 0 is free again at the end. -/
theorem History_run_idlePairs (n : Nat) (rest : List (Nat × AttachCall)) (h : History) (c : Int)
    (hI : IdleAt h.Machine c) (hF : h.Filled 0 = none) :
    ∃ h1 : History, IdleAt h1.Machine (c + n) ∧ h1.Filled 0 = none ∧
      (∀ tail, runCalls h.Machine (idlePairs n ++ tail) = runCalls h1.Machine tail) ∧
      h.run ((idlePairs n).map (fun call => (0, call)) ++ rest) = h1.run rest := by
  induction n generalizing h c with
  | zero => exact ⟨h, by simpa using hI, hF, fun _ => rfl, rfl⟩
  | succ n ih =>
    obtain ⟨s1, s2, e1, f1, e2, h2⟩ := idlePair_step h.Machine c hI
    have c1 : s1.CurrentThread = 0 := by
      have := congrArg Outcome.state e1
      simp only [Outcome.state] at this
      rw [← this]
      simp [KeStackAttachProcess, KiAttachProcess, KiSwapProcess, KiMoveApcState,
        KeGetCurrentThread, KeIsExecutingDpc, KeAcquireDispatcherDatabaseLock,
        KeReleaseDispatcherDatabaseLock, KeAcquireSpinLockAtDpcLevel,
        KeReleaseSpinLockFromDpcLevel, Ke386SetPageTableDirectory, setThread, setProcess,
        readApcState, writeApcState, writeApcStateProcess, OriginalApcEnvironment,
        Outcome.state, hI.1, hI.2.1, hI.2.2.1, hI.2.2.2.1]
    obtain ⟨h3, i3, f3, r3, e3⟩ := ih
      { Machine := s2, Filled := Function.update h.Filled 0 none }
      (c + 1) h2 (by simp)
    refine ⟨h3, ?_, f3, ?_, ?_⟩
    · have : c + 1 + (n : Int) = c + ((n + 1 : Nat) : Int) := by push_cast; ring
      rw [← this]; exact i3
    · intro tail
      have g0 : LocksFree h.Machine := ⟨hI.2.2.2.2.1, by rw [hI.1]; exact hI.2.2.2.2.2.1⟩
      simp [idlePairs, runCalls, AttachCall.call, AttachCall.takesLocks, e1, e2, g0, f1]
      exact r3 tail
    · simp [idlePairs, History.run, History.step, dispatch_self _ _ hI.1, dispatch_self _ _ c1,
        e1, e2, Outcome.toOption]
      exact e3

/-- After `2 ^ w - 1` stacked attaches to process 200, each unstacked at
once, and a `KeAttachProcess` to process 200, the thread borrows process 200
and `2 ^ w` increments have been applied to its stack count and no decrement:
a member of `w` bits is back at zero, and the `KeDetachProcess` that follows
applies its decrement to it.  No call of the sequence finds a lock held and
none stops. -/
theorem StackCount_wraps (w : Nat) :
    ∃ (s1 s2 : KSTATE) (h1 : History),
      (History.start sampleState).run ((wrapCalls w).map fun call => (0, call)) = some h1 ∧
      h1.Machine = s1 ∧
      runCalls sampleState (wrapCalls w) = .Done s1 ∧
      (s1.Threads 0).ApcStateIndex = AttachedApcEnvironment ∧
      (s1.Threads 0).ApcState.Process = 200 ∧
      (s1.Processes 200).StackCount = 2 ^ w ∧
      StackCountMember w (s1.Processes 200).StackCount = 0 ∧
      runCalls s1 [.Detach] = .Done s2 ∧
      KeDetachProcess s1 = .Return s2 ∧
      (s2.Processes 200).StackCount = 2 ^ w - 1 ∧
      StackCountMember w (s2.Processes 200).StackCount = 2 ^ w - 1 := by
  have h0 : IdleAt (History.start sampleState).Machine 0 := by
    simp [IdleAt, History.start, sampleState, sampleThread, sampleApcState, sampleProcess,
      OriginalApcEnvironment]
  obtain ⟨h1, i1, f1, r1, e1⟩ := History_run_idlePairs (2 ^ w - 1) [(0, .Attach 200)]
    (History.start sampleState) 0 h0 rfl
  obtain ⟨hc, hi, hp, hd, l0, l1, hn⟩ := i1
  have hpos : (1 : Int) ≤ 2 ^ w := by exact_mod_cast Nat.one_le_two_pow
  have hcast : ((2 ^ w - 1 : Nat) : Int) = 2 ^ w - 1 := by
    have : 1 ≤ 2 ^ w := Nat.one_le_two_pow
    push_cast [Nat.cast_sub this]; ring
  rw [hcast] at hn
  refine ⟨(KeAttachProcess 200 h1.Machine).state,
    (KeDetachProcess (KeAttachProcess 200 h1.Machine).state).state,
    { Machine := (KeAttachProcess 200 h1.Machine).state, Filled := h1.Filled }, ?_, rfl, ?_, ?_⟩
  · simp only [wrapCalls, List.map_append, List.map_cons, List.map_nil]
    rw [e1]
    simp [History.run, History.step, dispatch_self _ _ hc, KeAttachProcess, KeGetCurrentThread,
      KeIsExecutingDpc, KeAcquireDispatcherDatabaseLock, KeAcquireSpinLockAtDpcLevel, setThread,
      hc, hi, hp, hd, OriginalApcEnvironment, Outcome.toOption, Outcome.state]
  · have := r1 [.Attach 200]
    simp only [History.start] at this
    simp only [wrapCalls]
    rw [this]
    simp [runCalls, AttachCall.call, AttachCall.takesLocks, LocksFree, KeAttachProcess,
      KeGetCurrentThread, KeIsExecutingDpc, KeAcquireDispatcherDatabaseLock,
      KeAcquireSpinLockAtDpcLevel, setThread, hc, hi, hp, hd, l0, l1, OriginalApcEnvironment,
      Outcome.state]
  · have m1 : StackCountMember w (2 ^ w) = 0 := by simp [StackCountMember]
    have m2 : StackCountMember w (2 ^ w - 1) = 2 ^ w - 1 := by
      simp only [StackCountMember]
      exact Int.emod_eq_of_lt (by omega) (by omega)
    simp [runCalls, AttachCall.call, AttachCall.takesLocks, LocksFree, KeAttachProcess,
      KeDetachProcess, KiAttachProcess, KiSwapProcess, KiMoveApcState, KeGetCurrentThread,
      KeIsExecutingDpc, KeAcquireDispatcherDatabaseLock, KeReleaseDispatcherDatabaseLock,
      KeAcquireSpinLockAtDpcLevel, KeReleaseSpinLockFromDpcLevel, Ke386SetPageTableDirectory,
      setThread, setProcess, readApcState, writeApcState, writeApcStateProcess,
      OriginalApcEnvironment, AttachedApcEnvironment, Outcome.state, hc, hi, hp, hd, l0, l1, hn,
      m1, m2]

/-- C4 (the code departs from the claim). On `sampleState` every thread is in
the original environment and every stack count is 0.  For a `StackCount`
member of 8, of 16 and of 32 bits: thread 0 makes `2 ^ w - 1` stacked
attaches to process 200, each unstacked at once through the buffer it filled,
and then `KeAttachProcess(200)`.  No call stops or finds a lock held, the
thread ends attached to process 200, and as `KeUnstackDetachProcess` never
decrements, `2 ^ w` increments have been applied: the member holds 0 while
the process is borrowed, and the `KeDetachProcess` that follows returns after
applying its decrement to a count that is 0, which leaves all `w` bits
set. -/
theorem StackCount_member_wraps_at_sample :
    (∀ t, (sampleState.Threads t).ApcStateIndex = OriginalApcEnvironment) ∧
    (∀ P, (sampleState.Processes P).StackCount = 0) ∧
    (∃ (s1 s2 : KSTATE) (h1 : History),
      (History.start sampleState).run ((wrapCalls 8).map fun call => (0, call)) = some h1 ∧
      h1.Machine = s1 ∧
      runCalls sampleState (wrapCalls 8) = .Done s1 ∧
      (s1.Threads 0).ApcStateIndex = AttachedApcEnvironment ∧
      (s1.Threads 0).ApcState.Process = 200 ∧
      (s1.Processes 200).StackCount = 2 ^ 8 ∧
      StackCountMember 8 (s1.Processes 200).StackCount = 0 ∧
      runCalls s1 [.Detach] = .Done s2 ∧
      KeDetachProcess s1 = .Return s2 ∧
      (s2.Processes 200).StackCount = 2 ^ 8 - 1 ∧
      StackCountMember 8 (s2.Processes 200).StackCount = 2 ^ 8 - 1) ∧
    (∃ (s1 s2 : KSTATE) (h1 : History),
      (History.start sampleState).run ((wrapCalls 16).map fun call => (0, call)) = some h1 ∧
      h1.Machine = s1 ∧
      runCalls sampleState (wrapCalls 16) = .Done s1 ∧
      (s1.Threads 0).ApcStateIndex = AttachedApcEnvironment ∧
      (s1.Threads 0).ApcState.Process = 200 ∧
      (s1.Processes 200).StackCount = 2 ^ 16 ∧
      StackCountMember 16 (s1.Processes 200).StackCount = 0 ∧
      runCalls s1 [.Detach] = .Done s2 ∧
      KeDetachProcess s1 = .Return s2 ∧
      (s2.Processes 200).StackCount = 2 ^ 16 - 1 ∧
      StackCountMember 16 (s2.Processes 200).StackCount = 2 ^ 16 - 1) ∧
    (∃ (s1 s2 : KSTATE) (h1 : History),
      (History.start sampleState).run ((wrapCalls 32).map fun call => (0, call)) = some h1 ∧
      h1.Machine = s1 ∧
      runCalls sampleState (wrapCalls 32) = .Done s1 ∧
      (s1.Threads 0).ApcStateIndex = AttachedApcEnvironment ∧
      (s1.Threads 0).ApcState.Process = 200 ∧
      (s1.Processes 200).StackCount = 2 ^ 32 ∧
      StackCountMember 32 (s1.Processes 200).StackCount = 0 ∧
      runCalls s1 [.Detach] = .Done s2 ∧
      KeDetachProcess s1 = .Return s2 ∧
      (s2.Processes 200).StackCount = 2 ^ 32 - 1 ∧
      StackCountMember 32 (s2.Processes 200).StackCount = 2 ^ 32 - 1) :=
  ⟨fun _ => rfl, fun _ => rfl, StackCount_wraps 8, StackCount_wraps 16, StackCount_wraps 32⟩

/-! ## `KeAttachProcess` -/

/-- Whatever the flags of the current APC state, `KeDetachProcess` returns
as soon as the environment index is not the original one: the only test it
makes before detaching is on `ApcStateIndex`. -/
theorem KeDetachProcess_returns_of_attached (s : KSTATE)
    (hEnv : (s.Threads s.CurrentThread).ApcStateIndex ≠ OriginalApcEnvironment) :
    (KeDetachProcess s).returned = true := by
  simp only [OriginalApcEnvironment] at hEnv
  simp [KeDetachProcess, KeGetCurrentThread, KeAcquireDispatcherDatabaseLock,
    KeAcquireSpinLockAtDpcLevel, setThread, hEnv, OriginalApcEnvironment, Outcome.returned]

/-- C7 (the code departs from the claim). On `sampleStateInApc` the thread is
attached to process 200 and its current APC state has `KernelApcInProgress`
set; `KeDetachProcess()` does not stop the system: it returns, with the
thread back in the original environment and the stack count of process 200
taken from 1 to 0.  On the same state `KeUnstackDetachProcess` does end in
`INVALID_PROCESS_DETACH_ATTEMPT`. -/
theorem KeDetachProcess_in_kernel_apc_at_sample :
    (sampleStateInApc.Threads sampleStateInApc.CurrentThread).ApcStateIndex =
        AttachedApcEnvironment ∧
      (sampleStateInApc.Threads
        sampleStateInApc.CurrentThread).ApcState.KernelApcInProgress = true ∧
      (KeDetachProcess sampleStateInApc).returned = true ∧
      (KeDetachProcess sampleStateInApc).code = none ∧
      ((KeDetachProcess sampleStateInApc).state.Threads 0).ApcStateIndex =
        OriginalApcEnvironment ∧
      ((KeDetachProcess sampleStateInApc).state.Processes 200).StackCount = 0 ∧
      (KeUnstackDetachProcess (.Buffer 0) sampleStateInApc).code =
        some .INVALID_PROCESS_DETACH_ATTEMPT := by
  decide

/-- C12. Active tag and page table register agree: when the page table
register holds the directory table base of the process the current APC state
is bound to before a call, it does so again after every `KeAttachProcess`,
`KeDetachProcess`, `KeStackAttachProcess` or `KeUnstackDetachProcess` that
returns, for every target and every caller buffer. -/
theorem Cr3Agrees_preserved (s : KSTATE) (h : Cr3Agrees s) (P : PKPROCESS) (b : Nat) :
    (∀ s1, KeAttachProcess P s = .Return s1 → Cr3Agrees s1) ∧
    (∀ s1, KeDetachProcess s = .Return s1 → Cr3Agrees s1) ∧
    (∀ s1, KeStackAttachProcess P (.Buffer b) s = .Return s1 → Cr3Agrees s1) ∧
    (∀ s1, KeUnstackDetachProcess (.Buffer b) s = .Return s1 → Cr3Agrees s1) := by
  unfold Cr3Agrees at h
  refine ⟨?_, ?_, ?_, ?_⟩
  · intro s1 hs
    simp only [KeAttachProcess, KeIsExecutingDpc, KeGetCurrentThread] at hs
    split_ifs at hs with h1 h2
    · injection hs with hs
      subst hs
      simp [Cr3Agrees, KeAcquireDispatcherDatabaseLock, KeReleaseDispatcherDatabaseLock,
        KeAcquireSpinLockAtDpcLevel, KeReleaseSpinLockFromDpcLevel, setThread, h]
    · injection hs with hs
      subst hs
      simp [Cr3Agrees, KiAttachProcess, KiSwapProcess, KiMoveApcState,
        Ke386SetPageTableDirectory, KeAcquireDispatcherDatabaseLock,
        KeReleaseDispatcherDatabaseLock, KeAcquireSpinLockAtDpcLevel,
        KeReleaseSpinLockFromDpcLevel, setThread, setProcess, readApcState, writeApcState,
        DirectoryTableBase_update]
  · intro s1 hs
    simp only [KeDetachProcess, KeGetCurrentThread] at hs
    split_ifs at hs with h1
    injection hs with hs
    subst hs
    simp [Cr3Agrees, KiSwapProcess, KiMoveApcState,
      Ke386SetPageTableDirectory, KeAcquireDispatcherDatabaseLock,
      KeReleaseDispatcherDatabaseLock, KeAcquireSpinLockAtDpcLevel,
      KeReleaseSpinLockFromDpcLevel, setThread, setProcess, readApcState, writeApcState,
      writeApcStateProcess, DirectoryTableBase_update]
  · intro s1 hs
    simp only [KeStackAttachProcess, KeIsExecutingDpc, KeGetCurrentThread] at hs
    split_ifs at hs with h1 h2 h3
    · injection hs with hs
      subst hs
      simp [Cr3Agrees, KeAcquireDispatcherDatabaseLock,
        KeAcquireSpinLockAtDpcLevel, setThread, readApcState, writeApcState,
        writeApcStateProcess, h]
    · injection hs with hs
      subst hs
      simp [Cr3Agrees, KiAttachProcess, KiSwapProcess, KiMoveApcState,
        Ke386SetPageTableDirectory, KeAcquireDispatcherDatabaseLock,
        KeReleaseDispatcherDatabaseLock, KeAcquireSpinLockAtDpcLevel,
        KeReleaseSpinLockFromDpcLevel, setThread, setProcess, readApcState, writeApcState,
        DirectoryTableBase_update]
    · injection hs with hs
      subst hs
      simp [Cr3Agrees, KiAttachProcess, KiSwapProcess, KiMoveApcState,
        Ke386SetPageTableDirectory, KeAcquireDispatcherDatabaseLock,
        KeReleaseDispatcherDatabaseLock, KeAcquireSpinLockAtDpcLevel,
        KeReleaseSpinLockFromDpcLevel, setThread, setProcess, readApcState, writeApcState,
        writeApcStateProcess, DirectoryTableBase_update]
  · intro s1 hs
    simp only [KeUnstackDetachProcess, KeGetCurrentThread] at hs
    split_ifs at hs with h1 h2 h3
    · injection hs with hs
      subst hs
      exact h
    · injection hs with hs
      subst hs
      simp [Cr3Agrees, KiSwapProcess, KiMoveApcState,
        Ke386SetPageTableDirectory, KeAcquireDispatcherDatabaseLock,
        KeReleaseDispatcherDatabaseLock, KeAcquireSpinLockAtDpcLevel,
        KeReleaseSpinLockFromDpcLevel, setThread, readApcState, writeApcState]
    · injection hs with hs
      subst hs
      simp [Cr3Agrees, KiSwapProcess, KiMoveApcState,
        Ke386SetPageTableDirectory, KeAcquireDispatcherDatabaseLock,
        KeReleaseDispatcherDatabaseLock, KeAcquireSpinLockAtDpcLevel,
        KeReleaseSpinLockFromDpcLevel, setThread, readApcState, writeApcState,
        writeApcStateProcess]

/-- Witness of C12 on `sampleState`: after `KeAttachProcess(200)` and after
`KeStackAttachProcess(200, buf)` the page table register is on the page
directory of process 200, to which the current APC state is bound. -/
theorem Cr3Agrees_preserved_witness :
    Cr3Agrees sampleState ∧
      Cr3Agrees (KeAttachProcess 200 sampleState).state ∧
      Cr3Agrees (KeStackAttachProcess 200 (.Buffer 0) sampleState).state :=
  ⟨by unfold Cr3Agrees; decide,
    (Cr3Agrees_preserved sampleState (by unfold Cr3Agrees; decide) 200 0).1 _ rfl,
    (Cr3Agrees_preserved sampleState (by unfold Cr3Agrees; decide) 200 0).2.2.1 _ rfl⟩

/-! ## `KeInitializeProcess` -/

/-- C13 as stated fails: in `sampleStateStale` the block at address 300
holds stack count 5 before the call, and it still holds 5, not 0, after
`KeInitializeProcess`. -/
theorem KeInitializeProcess_StackCount_counterexample :
    (sampleStateStale.Processes 300).StackCount = 5 ∧
      ((KeInitializeProcess 120 300 8 1 1228800 sampleStateStale).Processes 300).StackCount ≠ 0 := by
  decide

/-- C13, amended. Process initialization: for every prior content of the
process control block and every priority, affinity and directory table base,
after `KeInitializeProcess` the block's `BasePriority`, `Affinity` and
`DirectoryTableBase` equal the arguments and its thread list is empty; its
`StackCount` is not written and keeps the value the block held before, and no
other process control block changes. -/
theorem KeInitializeProcess_fields (sizeofKPROCESS : Nat) (Process : PKPROCESS)
    (Priority : Int) (Affinity DirectoryTableBase : Nat) (s : KSTATE) :
    ((KeInitializeProcess sizeofKPROCESS Process Priority Affinity DirectoryTableBase
        s).Processes Process).BasePriority = Priority ∧
      ((KeInitializeProcess sizeofKPROCESS Process Priority Affinity DirectoryTableBase
        s).Processes Process).Affinity = Affinity ∧
      ((KeInitializeProcess sizeofKPROCESS Process Priority Affinity DirectoryTableBase
        s).Processes Process).DirectoryTableBase = DirectoryTableBase ∧
      ((KeInitializeProcess sizeofKPROCESS Process Priority Affinity DirectoryTableBase
        s).Processes Process).ThreadListHead = [] ∧
      ((KeInitializeProcess sizeofKPROCESS Process Priority Affinity DirectoryTableBase
        s).Processes Process).StackCount = (s.Processes Process).StackCount ∧
      (∀ Q, Q ≠ Process →
        (KeInitializeProcess sizeofKPROCESS Process Priority Affinity DirectoryTableBase
          s).Processes Q = s.Processes Q) := by
  refine ⟨?_, ?_, ?_, ?_, ?_, fun Q hQ => ?_⟩ <;>
    simp [KeInitializeProcess, setProcess, *]

/-- Witness of the amended C13: the other blocks of `sampleStateStale` are
left alone when the block at address 300 is initialized. -/
theorem KeInitializeProcess_fields_witness :
    (KeInitializeProcess 120 300 8 1 1228800 sampleStateStale).Processes 200 =
      sampleStateStale.Processes 200 :=
  (KeInitializeProcess_fields 120 300 8 1 1228800 sampleStateStale).2.2.2.2.2 200 (by decide)

/-! ## System service tables -/

/-- A well formed pair of tables is two lists of four entries. -/
theorem SERVICE_TABLES.eq_of_WellFormed (s : SERVICE_TABLES) (h : s.WellFormed) :
    ∃ m0 m1 m2 m3 s0 s1 s2 s3,
      s = { KeServiceDescriptorTable := [m0, m1, m2, m3]
            KeServiceDescriptorTableShadow := [s0, s1, s2, s3] } := by
  obtain ⟨m, sh⟩ := s
  obtain ⟨hm, hs⟩ := h
  simp only [SSDT_MAX_ENTRIES] at hm hs
  rcases m with _ | ⟨m0, _ | ⟨m1, _ | ⟨m2, _ | ⟨m3, _ | ⟨m4, mt⟩⟩⟩⟩⟩ <;>
    simp at hm
  rcases sh with _ | ⟨s0, _ | ⟨s1, _ | ⟨s2, _ | ⟨s3, _ | ⟨s4, st⟩⟩⟩⟩⟩ <;>
    simp at hs
  exact ⟨m0, m1, m2, m3, s0, s1, s2, s3, rfl⟩

/-- C14 as stated fails: in the tables at boot slot 3, the maximum valid
index, is in range and free; `KeAddSystemServiceTable` with a `NULL` base
returns TRUE for it, and a second call at the same index returns TRUE
again. -/
theorem KeAddSystemServiceTable_twice_counterexample :
    sampleServiceTables.WellFormed ∧
      3 ≤ SSDT_MAX_ENTRIES - 1 ∧
      ¬SlotOccupied sampleServiceTables 3 ∧
      (KeAddSystemServiceTable 0 0 0 0 3 sampleServiceTables).map Prod.fst = some true ∧
      ((KeAddSystemServiceTable 0 0 0 0 3 sampleServiceTables).bind fun r =>
        KeAddSystemServiceTable 4210688 0 16 4214784 3 r.2).map Prod.fst = some true := by
  decide

/-- C14, amended. Registration of a table succeeds exactly once per slot: for
every in-range slot index (0 to 3) that is free and every table description
whose base is not `NULL`, `KeAddSystemServiceTable` returns TRUE, and a second
`KeAddSystemServiceTable` at the same index, with any arguments, returns FALSE
and changes nothing. -/
theorem KeAddSystemServiceTable_once (s : SERVICE_TABLES) (hWF : s.WellFormed) (Index : Nat)
    (hI : Index ≤ SSDT_MAX_ENTRIES - 1) (hFree : ¬SlotOccupied s Index)
    (Base Count Limit Number : Nat) (hB : Base ≠ 0) (Base2 Count2 Limit2 Number2 : Nat) :
    ∃ s1, KeAddSystemServiceTable Base Count Limit Number Index s = some (true, s1) ∧
      KeAddSystemServiceTable Base2 Count2 Limit2 Number2 Index s1 = some (false, s1) := by
  obtain ⟨m0, m1, m2, m3, s0, s1, s2, s3, rfl⟩ := s.eq_of_WellFormed hWF
  simp only [SSDT_MAX_ENTRIES] at hI
  simp only [SlotOccupied, not_or, not_not] at hFree
  obtain ⟨hm, hs⟩ := hFree
  interval_cases Index <;>
    simp_all [KeAddSystemServiceTable, storeEntry, SSDT_MAX_ENTRIES]

/-- Witness of the amended C14: slot 3 of the tables at boot. -/
theorem KeAddSystemServiceTable_once_witness :
    ∃ s1, KeAddSystemServiceTable 4210688 0 16 4214784 3 sampleServiceTables = some (true, s1) ∧
      KeAddSystemServiceTable 4218880 0 8 4222976 3 s1 = some (false, s1) :=
  KeAddSystemServiceTable_once sampleServiceTables (by decide) 3 (by decide) (by decide)
    4210688 0 16 4214784 (by decide) 4218880 0 8 4222976

/-- C15. `KeAddSystemServiceTable(Base, Count, Limit, Number, Index)` on well
formed tables never reads or writes outside an array, and it returns FALSE
exactly when `Index` is above 3 or slot `Index` is occupied in the main or in
the shadow table.  On FALSE both tables are as before; on TRUE the main table
is as before, the shadow entry at `Index` is `(Base, Count, Limit, Number)`
and every other shadow entry is as before. -/
theorem KeAddSystemServiceTable_spec (s : SERVICE_TABLES) (hWF : s.WellFormed)
    (Base Count Limit Number Index : Nat) :
    ∃ r s1, KeAddSystemServiceTable Base Count Limit Number Index s = some (r, s1) ∧
      (r = false ↔ (Index > SSDT_MAX_ENTRIES - 1 ∨ SlotOccupied s Index)) ∧
      (r = false → s1 = s) ∧
      (r = true →
        s1.KeServiceDescriptorTable = s.KeServiceDescriptorTable ∧
        s1.KeServiceDescriptorTableShadow[Index]? =
          some { Base := Base, Count := Count, Limit := Limit, Number := Number } ∧
        s1.KeServiceDescriptorTableShadow.length = SSDT_MAX_ENTRIES ∧
        ∀ j, j ≠ Index →
          s1.KeServiceDescriptorTableShadow[j]? = s.KeServiceDescriptorTableShadow[j]?) := by
  obtain ⟨m0, m1, m2, m3, s0, s1, s2, s3, rfl⟩ := s.eq_of_WellFormed hWF
  by_cases hI : Index > SSDT_MAX_ENTRIES - 1
  · exact ⟨false, _, by simp [KeAddSystemServiceTable, hI], by simp [hI], fun _ => rfl,
      fun h => by simp at h⟩
  · have hI3 : Index ≤ 3 := by simp only [SSDT_MAX_ENTRIES] at hI; omega
    interval_cases Index
    · by_cases hm : m0.Base = 0 <;> by_cases hs : s0.Base = 0 <;>
        simp [KeAddSystemServiceTable, storeEntry, SSDT_MAX_ENTRIES, SlotOccupied, hm, hs]
      intro j hj
      rcases j with _ | _ | _ | _ | j <;> simp_all
    · by_cases hm : m1.Base = 0 <;> by_cases hs : s1.Base = 0 <;>
        simp [KeAddSystemServiceTable, storeEntry, SSDT_MAX_ENTRIES, SlotOccupied, hm, hs]
      intro j hj
      rcases j with _ | _ | _ | _ | j <;> simp_all
    · by_cases hm : m2.Base = 0 <;> by_cases hs : s2.Base = 0 <;>
        simp [KeAddSystemServiceTable, storeEntry, SSDT_MAX_ENTRIES, SlotOccupied, hm, hs]
      intro j hj
      rcases j with _ | _ | _ | _ | j <;> simp_all
    · by_cases hm : m3.Base = 0 <;> by_cases hs : s3.Base = 0 <;>
        simp [KeAddSystemServiceTable, storeEntry, SSDT_MAX_ENTRIES, SlotOccupied, hm, hs]
      intro j hj
      rcases j with _ | _ | _ | _ | j <;> simp_all

/-- Witness of C15: registering at slot 3 of the tables at boot, which are
well formed. -/
theorem KeAddSystemServiceTable_spec_witness :
    ∃ r s1, KeAddSystemServiceTable 4210688 0 16 4214784 3 sampleServiceTables = some (r, s1) ∧
      (r = false ↔ (3 > SSDT_MAX_ENTRIES - 1 ∨ SlotOccupied sampleServiceTables 3)) ∧
      (r = false → s1 = sampleServiceTables) ∧
      (r = true →
        s1.KeServiceDescriptorTable = sampleServiceTables.KeServiceDescriptorTable ∧
        s1.KeServiceDescriptorTableShadow[3]? =
          some { Base := 4210688, Count := 0, Limit := 16, Number := 4214784 } ∧
        s1.KeServiceDescriptorTableShadow.length = SSDT_MAX_ENTRIES ∧
        ∀ j, j ≠ 3 →
          s1.KeServiceDescriptorTableShadow[j]? =
            sampleServiceTables.KeServiceDescriptorTableShadow[j]?) :=
  KeAddSystemServiceTable_spec sampleServiceTables (by decide) 4210688 0 16 4214784 3

/-- C16 as stated fails: in the tables at boot `KeRemoveSystemServiceTable(0)`
returns TRUE, yet slot 0 is still occupied (its main table entry stays), an
immediately repeated `KeRemoveSystemServiceTable(0)` returns TRUE again, and a
following `KeAddSystemServiceTable` at index 0 with a base that is not `NULL`
returns FALSE. -/
theorem KeRemoveSystemServiceTable_main_counterexample :
    sampleServiceTables.WellFormed ∧
      (KeRemoveSystemServiceTable 0 sampleServiceTables).map Prod.fst = some true ∧
      ((KeRemoveSystemServiceTable 0 sampleServiceTables).bind fun r =>
        KeRemoveSystemServiceTable 0 r.2).map Prod.fst = some true ∧
      ((KeRemoveSystemServiceTable 0 sampleServiceTables).bind fun r =>
        KeAddSystemServiceTable 4210688 0 16 4214784 0 r.2).map Prod.fst = some false := by
  decide

/-- C16, amended. On well formed tables `KeRemoveSystemServiceTable(Index)`
never reads or writes outside an array; it returns FALSE, changing nothing,
when `Index` is above 3 or slot `Index` is empty; and whenever it returns TRUE
at index 1 or at an index whose main table entry is empty, the slot is empty
afterwards, so that an immediately repeated `KeRemoveSystemServiceTable(Index)`
returns FALSE and a following `KeAddSystemServiceTable` at `Index` with a base
that is not `NULL` returns TRUE. -/
theorem KeRemoveSystemServiceTable_spec (s : SERVICE_TABLES) (hWF : s.WellFormed)
    (Index : Nat) :
    (∃ r s1, KeRemoveSystemServiceTable Index s = some (r, s1)) ∧
    ((Index > SSDT_MAX_ENTRIES - 1 ∨ ¬SlotOccupied s Index) →
      KeRemoveSystemServiceTable Index s = some (false, s)) ∧
    (∀ s1, KeRemoveSystemServiceTable Index s = some (true, s1) →
      (Index = 1 ∨ (s.KeServiceDescriptorTable.getD Index default).Base = 0) →
      ¬SlotOccupied s1 Index ∧
        KeRemoveSystemServiceTable Index s1 = some (false, s1) ∧
        ∀ Base Count Limit Number, Base ≠ 0 →
          ∃ s2, KeAddSystemServiceTable Base Count Limit Number Index s1 = some (true, s2)) := by
  obtain ⟨m0, m1, m2, m3, s0, s1, s2, s3, rfl⟩ := s.eq_of_WellFormed hWF
  by_cases hI : Index > SSDT_MAX_ENTRIES - 1
  · simp [KeRemoveSystemServiceTable, hI]
  · have hI3 : Index ≤ 3 := by simp only [SSDT_MAX_ENTRIES] at hI; omega
    interval_cases Index
    · by_cases hm : m0.Base = 0 <;> by_cases hs : s0.Base = 0 <;>
        simp [KeRemoveSystemServiceTable, KeAddSystemServiceTable, clearServiceTable,
          storeEntry, SSDT_MAX_ENTRIES, SlotOccupied, hm, hs]
    · by_cases hm : m1.Base = 0 <;> by_cases hs : s1.Base = 0 <;>
        simp [KeRemoveSystemServiceTable, KeAddSystemServiceTable, clearServiceTable,
          storeEntry, SSDT_MAX_ENTRIES, SlotOccupied, hm, hs]
    · by_cases hm : m2.Base = 0 <;> by_cases hs : s2.Base = 0 <;>
        simp [KeRemoveSystemServiceTable, KeAddSystemServiceTable, clearServiceTable,
          storeEntry, SSDT_MAX_ENTRIES, SlotOccupied, hm, hs]
    · by_cases hm : m3.Base = 0 <;> by_cases hs : s3.Base = 0 <;>
        simp [KeRemoveSystemServiceTable, KeAddSystemServiceTable, clearServiceTable,
          storeEntry, SSDT_MAX_ENTRIES, SlotOccupied, hm, hs]

/-- Witness of the amended C16: a table registered at slot 3 of the tables at
boot is removed, after which a second removal fails and a registration
succeeds. -/
theorem KeRemoveSystemServiceTable_spec_witness :
    SlotOccupied
        { sampleServiceTables with
          KeServiceDescriptorTableShadow :=
            sampleServiceTables.KeServiceDescriptorTableShadow.set 3
              { Base := 4210688, Count := 0, Limit := 16, Number := 4214784 } } 3 ∧
      ¬SlotOccupied sampleServiceTables 3 ∧
      KeRemoveSystemServiceTable 3 sampleServiceTables = some (false, sampleServiceTables) ∧
      ∀ Base Count Limit Number, Base ≠ 0 →
        ∃ s2, KeAddSystemServiceTable Base Count Limit Number 3 sampleServiceTables =
          some (true, s2) :=
  ⟨by decide, by decide,
    ((KeRemoveSystemServiceTable_spec
      { sampleServiceTables with
        KeServiceDescriptorTableShadow :=
          sampleServiceTables.KeServiceDescriptorTableShadow.set 3
            { Base := 4210688, Count := 0, Limit := 16, Number := 4214784 } }
      (by decide) 3).2.2 sampleServiceTables (by decide) (Or.inr (by decide))).2.1,
    ((KeRemoveSystemServiceTable_spec
      { sampleServiceTables with
        KeServiceDescriptorTableShadow :=
          sampleServiceTables.KeServiceDescriptorTableShadow.set 3
            { Base := 4210688, Count := 0, Limit := 16, Number := 4214784 } }
      (by decide) 3).2.2 sampleServiceTables (by decide) (Or.inr (by decide))).2.2⟩

/-! ## Memory sizing in `MmInit1` -/

/-- Without a wrap of the 32-bit sum, `lastPageOf` is the page-rounded end of
the entry, in pages. -/
theorem lastPageOf_eq (e : ADDRESS_RANGE)
    (h : e.BaseAddrLow + e.LengthLow + PAGE_SIZE - 1 < 2 ^ 32) :
    lastPageOf e = (e.BaseAddrLow + e.LengthLow + PAGE_SIZE - 1) / PAGE_SIZE := by
  simp only [lastPageOf, addULONG, subULONG, PAGE_SIZE] at *
  have e : (2 : Nat) ^ 32 = 4294967296 := by norm_num
  rw [e] at h ⊢
  omega

/-- The loop of `MmInit1` keeps a running maximum. -/
theorem foldl_last_eq (Map : List ADDRESS_RANGE)
    (hWrap : ∀ e ∈ Map, e.Type_ = 1 → e.BaseAddrLow + e.LengthLow + PAGE_SIZE - 1 < 2 ^ 32) :
    ∀ acc, Map.foldl
        (fun last e => if e.Type_ = 1 ∧ lastPageOf e > last then lastPageOf e else last) acc =
      max acc (usableLastPage Map) := by
  induction Map with
  | nil => intro acc; simp [usableLastPage]
  | cons e rest ih =>
    intro acc
    have ih1 := ih (fun x hx => hWrap x (List.mem_cons_of_mem _ hx))
    simp only [List.foldl_cons]
    rw [ih1]
    by_cases ht : e.Type_ = 1
    · have he := lastPageOf_eq e (hWrap e (List.mem_cons_self _ _) ht)
      simp only [usableLastPage, List.filter_cons, ht, decide_True, if_true, List.map_cons,
        List.foldr_cons, true_and, he]
      split_ifs <;> omega
    · simp only [usableLastPage, List.filter_cons, ht, decide_False, false_and, if_false]
      simp

/-- Over the whole map, and without a wrap of a 32-bit sum, the loop of
`MmInit1` computes the highest page-rounded end of a usable entry. -/
theorem MmInit1_last_eq (Map : List ADDRESS_RANGE)
    (hWrap : ∀ e ∈ Map, e.Type_ = 1 → e.BaseAddrLow + e.LengthLow + PAGE_SIZE - 1 < 2 ^ 32) :
    MmInit1_last Map Map.length = usableLastPage Map := by
  simp [MmInit1_last, foldl_last_eq Map hWrap]

/-- The part of C17 the code keeps: when the loop finds a usable entry that
ends at or above 1 MiB (`last` at least 256), no 32-bit sum wraps, and the
amount the map reports does not exceed the loader value, the scan leaves the
loader value as it is. -/
theorem MmInit1_scan_unchanged_of_last_ge (Map : List ADDRESS_RANGE) (MemHigher : Nat)
    (hWrap : ∀ e ∈ Map, e.Type_ = 1 → e.BaseAddrLow + e.LengthLow + PAGE_SIZE - 1 < 2 ^ 32)
    (hLast : 256 ≤ usableLastPage Map) (hM : MemHigher < 2 ^ 32)
    (hLe : reportedAbove1MiB Map ≤ MemHigher) :
    MmInit1_scan (some Map) Map.length MemHigher = MemHigher := by
  simp only [MmInit1_scan, MmInit1_last_eq Map hWrap, reportedAbove1MiB] at *
  have e : (2 : Nat) ^ 32 = 4294967296 := by norm_num
  simp only [mulULONG, subULONG, e] at *
  split_ifs <;> omega

/-- C17 (the code departs from the claim). The only usable entry of
`sampleMapLowOnly` ends at 636 KiB, below 1 MiB, so the amount the map
reports above 1 MiB is 0 and does not exceed the loader value 31744; the loop
of `MmInit1` finds `last = 159`, the `ULONG` difference `last - 256` wraps,
and the scan replaces the loader value by 4294966908. -/
theorem MmInit1_scan_low_map_at_sample :
    reportedAbove1MiB sampleMapLowOnly = 0 ∧
      reportedAbove1MiB sampleMapLowOnly ≤ 31744 ∧
      MmInit1_last sampleMapLowOnly 2 = 159 ∧
      MmInit1_scan (some sampleMapLowOnly) 2 31744 = 4294966908 ∧
      MmInit1_scan (some sampleMapLowOnly) 2 31744 ≠ 31744 := by
  decide

/-- The part of C18 the code keeps: with loader value 0 and a firmware map
that is absent or empty, the page count before the `BIOS_MEM_FIX` adjustment
is 2048 for every configured maximum. -/
theorem MmInit1_fallback_of_no_map (BIOS_MEM_FIX : Bool) (AddressRangeCount MaxMem : Nat) :
    (MmInit1_sizing BIOS_MEM_FIX none AddressRangeCount MaxMem 0).DetectedPages = 2048 ∧
      (MmInit1_sizing BIOS_MEM_FIX (some []) 0 MaxMem 0).DetectedPages = 2048 := by
  constructor <;>
    simp only [MmInit1_sizing, MmInit1_scan, MmInit1_clamp, MmInit1_detectedPages] <;>
    split_ifs <;> simp_all

/-- C18 (the code departs from the claim). With loader value 0, the map
`sampleMapReserved`, which has one entry and no usable one, and a configured
maximum of 64, no usable memory is detected from either source; the loop of
`MmInit1` leaves `last = 0`, the `ULONG` difference `last - 256` wraps, the
loader value becomes 4294966272 and is clamped to 64512, and the page count
before any `BIOS_MEM_FIX` adjustment is 16384, not 2048. -/
theorem MmInit1_no_usable_entry_at_sample :
    usableLastPage sampleMapReserved = 0 ∧
      MmInit1_last sampleMapReserved 1 = 0 ∧
      MmInit1_scan (some sampleMapReserved) 1 0 = 4294966272 ∧
      (MmInit1_sizing false (some sampleMapReserved) 1 64 0).MemHigher = 64512 ∧
      (MmInit1_sizing false (some sampleMapReserved) 1 64 0).DetectedPages = 16384 ∧
      (MmInit1_sizing false (some sampleMapReserved) 1 64 0).DetectedPages ≠ 2048 := by
  decide

/-- C19. Memory sizing: for a firmware map and a loader value such that no
32-bit sum of a usable entry wraps, with `last` the highest page-rounded end
of a usable entry in pages and `derived = (last - 256) * 4`, if `last` is at
least 256, `derived` exceeds the loader value, `derived` is below the clamp
`(MaxMem - 1) * 1024` and `BIOS_MEM_FIX` is not defined, then `MmInit1`
replaces the loader value by `derived` and computes the page count
`derived / 4 + 256`, which is `last`; a map with the same usable entries gives
the same result. -/
theorem MmInit1_sizing_of_map (Map : List ADDRESS_RANGE) (MaxMem MemHigher : Nat)
    (hWrap : ∀ e ∈ Map, e.Type_ = 1 → e.BaseAddrLow + e.LengthLow + PAGE_SIZE - 1 < 2 ^ 32)
    (hLast : 256 ≤ usableLastPage Map)
    (hExceeds : MemHigher < (usableLastPage Map - 256) * 4)
    (hClamp : (usableLastPage Map - 256) * 4 < mulULONG (subULONG MaxMem 1) 1024) :
    MmInit1_sizing false (some Map) Map.length MaxMem MemHigher =
        { MemHigher := (usableLastPage Map - 256) * 4
          DetectedPages := (usableLastPage Map - 256) * 4 / 4 + 256
          NrTotalPages := (usableLastPage Map - 256) * 4 / 4 + 256 } ∧
      (usableLastPage Map - 256) * 4 / 4 + 256 = usableLastPage Map ∧
      ∀ Map2 : List ADDRESS_RANGE,
        (Map2.filter fun e => e.Type_ = 1) = (Map.filter fun e => e.Type_ = 1) →
        MmInit1_sizing false (some Map2) Map2.length MaxMem MemHigher =
          MmInit1_sizing false (some Map) Map.length MaxMem MemHigher := by
  have e : (2 : Nat) ^ 32 = 4294967296 := by norm_num
  have key : ∀ M : List ADDRESS_RANGE,
      (∀ e ∈ M, e.Type_ = 1 → e.BaseAddrLow + e.LengthLow + PAGE_SIZE - 1 < 2 ^ 32) →
      usableLastPage M = usableLastPage Map →
      MmInit1_sizing false (some M) M.length MaxMem MemHigher =
        { MemHigher := (usableLastPage Map - 256) * 4
          DetectedPages := (usableLastPage Map - 256) * 4 / 4 + 256
          NrTotalPages := (usableLastPage Map - 256) * 4 / 4 + 256 } := by
    intro M hW hU
    have hlen : M.length > 0 := by
      rcases M with _ | ⟨a, t⟩
      · have h0 : usableLastPage ([] : List ADDRESS_RANGE) = 0 := rfl
        rw [h0] at hU
        omega
      · simp
    have hc : mulULONG (subULONG MaxMem 1) 1024 < 2 ^ 32 := by
      simp only [mulULONG]; exact Nat.mod_lt _ (by norm_num)
    have hd : mulULONG (subULONG (usableLastPage Map) 256) 4 = (usableLastPage Map - 256) * 4 := by
      simp only [mulULONG, subULONG, e] at *
      omega
    simp only [MmInit1_sizing, MmInit1_scan, MmInit1_clamp, MmInit1_NrTotalPages,
      MmInit1_detectedPages, MmInit1_last_eq M hW, hU, hd, hlen, if_true, gt_iff_lt,
      hExceeds, ge_iff_le, Bool.false_eq_true, if_false]
    have h1 : ¬ mulULONG (subULONG MaxMem 1) 1024 ≤ (usableLastPage Map - 256) * 4 := by omega
    have h2 : ¬ (usableLastPage Map - 256) * 4 / 4 = 0 := by omega
    simp only [h1, h2, if_false, addULONG, e]
    have h3 : ((usableLastPage Map - 256) * 4 / 4 + 256) % 4294967296 =
        (usableLastPage Map - 256) * 4 / 4 + 256 := by
      rw [e] at hc; omega
    rw [h3]
  refine ⟨key Map hWrap rfl, by omega, fun Map2 h2 => ?_⟩
  rw [key Map hWrap rfl]
  apply key Map2
  · intro x hx ht
    have hx2 : x ∈ Map.filter fun e => e.Type_ = 1 := by
      rw [← h2]; exact List.mem_filter.2 ⟨hx, by simp [ht]⟩
    exact hWrap x (List.mem_filter.1 hx2).1 ht
  · simp only [usableLastPage, h2]

/-- Witness of C19: the single usable range from 0 to 32 MiB with loader value
0 and a configured maximum of 64; the loader value becomes 31744 and the page
count 8192. -/
theorem MmInit1_sizing_of_map_witness :
    usableLastPage sampleMap32MiB = 8192 ∧
      MmInit1_sizing false (some sampleMap32MiB) 1 64 0 =
        { MemHigher := 31744, DetectedPages := 8192, NrTotalPages := 8192 } :=
  ⟨by decide,
    (MmInit1_sizing_of_map sampleMap32MiB 64 0
      (by decide) (by decide) (by decide) (by decide)).1⟩

/-! ## The regions of the kernel image -/

/-- Without a wrap, the macro `PAGE_ROUND_UP` rounds up to `PAGE_SIZE`. -/
theorem PAGE_ROUND_UP_eq (x : Nat) (h : x + PAGE_SIZE - 1 < 2 ^ 32) :
    PAGE_ROUND_UP x = pageRoundUp x := by
  have e : (2 : Nat) ^ 32 = 4294967296 := by norm_num
  simp only [PAGE_ROUND_UP, pageRoundUp, addULONG, PAGE_SIZE, e] at *
  split_ifs <;> omega

/-- The value of `pageRoundUp` is a multiple of the page size, not below its
argument and less than a page above it. -/
theorem pageRoundUp_spec (x : Nat) :
    pageRoundUp x % PAGE_SIZE = 0 ∧ x ≤ pageRoundUp x ∧ pageRoundUp x < x + PAGE_SIZE := by
  simp only [pageRoundUp, PAGE_SIZE]
  omega

/-- Rounding up keeps the order of addresses. -/
theorem pageRoundUp_mono {x y : Nat} (h : x ≤ y) : pageRoundUp x ≤ pageRoundUp y := by
  simp only [pageRoundUp, PAGE_SIZE]
  omega

/-- C20. Image region tiling: for a kernel image with `KERNEL_BASE` at most the
end of the `.text` section, that at most the start of the `.reloc` section,
that at most `LastKernelAddress`, and no 32-bit wrap in rounding
`LastKernelAddress` up, the code, data and trailing descriptors
`MmInitVirtualMemory` registers are `[KERNEL_BASE, up(textEnd))`,
`[up(textEnd), up(relocStart))` and `[up(relocStart), up(LastKernelAddress))`
with `up` rounding up to `PAGE_SIZE`: each has a page aligned base and
length, each ends where the next begins, no address lies in two of them, and
an address lies in one of them exactly when it lies in
`[KERNEL_BASE, up(LastKernelAddress))`. -/
theorem MmInitVirtualMemory_image_tiling (K : MM_CONSTANTS) (C : MM_COLLABORATORS)
    (Sections : List IMAGE_SECTION_HEADER) (LastKernelAddress KernelLength : Nat)
    (h1 : KERNEL_BASE ≤ FindSegmentEnd Sections ".text")
    (h2 : FindSegmentEnd Sections ".text" ≤ FindSegmentStart Sections ".reloc")
    (h3 : FindSegmentStart Sections ".reloc" ≤ LastKernelAddress)
    (h4 : LastKernelAddress + PAGE_SIZE - 1 < 2 ^ 32) :
    ∃ text data param : MEMORY_AREA,
      (MmInitVirtualMemory K C Sections LastKernelAddress KernelLength).area
          .kernel_text_desc = some text ∧
      (MmInitVirtualMemory K C Sections LastKernelAddress KernelLength).area
          .kernel_data_desc = some data ∧
      (MmInitVirtualMemory K C Sections LastKernelAddress KernelLength).area
          .kernel_param_desc = some param ∧
      text.BaseAddress = KERNEL_BASE ∧
      text.BaseAddress + text.Length = pageRoundUp (FindSegmentEnd Sections ".text") ∧
      data.BaseAddress = pageRoundUp (FindSegmentEnd Sections ".text") ∧
      data.BaseAddress + data.Length = pageRoundUp (FindSegmentStart Sections ".reloc") ∧
      param.BaseAddress = pageRoundUp (FindSegmentStart Sections ".reloc") ∧
      param.BaseAddress + param.Length = pageRoundUp LastKernelAddress ∧
      (text.BaseAddress % PAGE_SIZE = 0 ∧ text.Length % PAGE_SIZE = 0 ∧
        data.BaseAddress % PAGE_SIZE = 0 ∧ data.Length % PAGE_SIZE = 0 ∧
        param.BaseAddress % PAGE_SIZE = 0 ∧ param.Length % PAGE_SIZE = 0) ∧
      (∀ x, ¬(text.Contains x ∧ data.Contains x) ∧ ¬(text.Contains x ∧ param.Contains x) ∧
        ¬(data.Contains x ∧ param.Contains x)) ∧
      (∀ x, (text.Contains x ∨ data.Contains x ∨ param.Contains x) ↔
        (KERNEL_BASE ≤ x ∧ x < pageRoundUp LastKernelAddress)) := by
  have e : (2 : Nat) ^ 32 = 4294967296 := by norm_num
  have hT := PAGE_ROUND_UP_eq (FindSegmentEnd Sections ".text")
    (by simp only [PAGE_SIZE] at *; omega)
  have hR := PAGE_ROUND_UP_eq (FindSegmentStart Sections ".reloc")
    (by simp only [PAGE_SIZE] at *; omega)
  have hL := PAGE_ROUND_UP_eq LastKernelAddress h4
  refine ⟨{ Result := .kernel_text_desc, Type_ := .MEMORY_AREA_SYSTEM
            BaseAddress := KERNEL_BASE
            Length := subULONG (PAGE_ROUND_UP (FindSegmentEnd Sections ".text")) KERNEL_BASE },
    { Result := .kernel_data_desc, Type_ := .MEMORY_AREA_SYSTEM
      BaseAddress := PAGE_ROUND_UP (FindSegmentEnd Sections ".text")
      Length := subULONG (PAGE_ROUND_UP (FindSegmentStart Sections ".reloc"))
        (PAGE_ROUND_UP (FindSegmentEnd Sections ".text")) },
    { Result := .kernel_param_desc, Type_ := .MEMORY_AREA_SYSTEM
      BaseAddress := PAGE_ROUND_UP (FindSegmentStart Sections ".reloc")
      Length := subULONG (PAGE_ROUND_UP LastKernelAddress)
        (PAGE_ROUND_UP (FindSegmentStart Sections ".reloc")) },
    by simp [MmInitVirtualMemory, MM_VIRTUAL_MEMORY.area],
    by simp [MmInitVirtualMemory, MM_VIRTUAL_MEMORY.area],
    by simp [MmInitVirtualMemory, MM_VIRTUAL_MEMORY.area], ?_⟩
  simp only [hT, hR, hL, MEMORY_AREA.Contains]
  obtain ⟨t1, t2, t3⟩ := pageRoundUp_spec (FindSegmentEnd Sections ".text")
  obtain ⟨r1, r2, r3⟩ := pageRoundUp_spec (FindSegmentStart Sections ".reloc")
  obtain ⟨l1, l2, l3⟩ := pageRoundUp_spec LastKernelAddress
  have m1 := pageRoundUp_mono h2
  have m2 := pageRoundUp_mono h3
  generalize pageRoundUp (FindSegmentEnd Sections ".text") = t at *
  generalize pageRoundUp (FindSegmentStart Sections ".reloc") = r at *
  generalize pageRoundUp LastKernelAddress = l at *
  simp only [subULONG, KERNEL_BASE, PAGE_SIZE, e] at *
  refine ⟨?_, ?_, ?_, ?_, ?_, ?_, ⟨?_, ?_, ?_, ?_, ?_, ?_⟩, fun x => ⟨?_, ?_, ?_⟩,
    fun x => ⟨?_, ?_⟩⟩ <;> first | omega | exact True.intro

/-- Witness of C20: the image of `sampleSections` (code end 0xC0001000,
relocations from 0xC0003000) with image end 0xC0010000; the three regions
are `[0xC0000000, 0xC0001000)`, `[0xC0001000, 0xC0003000)` and
`[0xC0003000, 0xC0010000)`. -/
theorem MmInitVirtualMemory_image_tiling_witness :
    (MmInitVirtualMemory sampleConstants sampleCollaborators sampleSections 0xC0010000
        0x10000).area .kernel_text_desc =
      some { Result := .kernel_text_desc, Type_ := .MEMORY_AREA_SYSTEM
             BaseAddress := 0xC0000000, Length := 0x1000 } ∧
    (MmInitVirtualMemory sampleConstants sampleCollaborators sampleSections 0xC0010000
        0x10000).area .kernel_data_desc =
      some { Result := .kernel_data_desc, Type_ := .MEMORY_AREA_SYSTEM
             BaseAddress := 0xC0001000, Length := 0x2000 } ∧
    (MmInitVirtualMemory sampleConstants sampleCollaborators sampleSections 0xC0010000
        0x10000).area .kernel_param_desc =
      some { Result := .kernel_param_desc, Type_ := .MEMORY_AREA_SYSTEM
             BaseAddress := 0xC0003000, Length := 0xD000 } ∧
    pageRoundUp 0xC0010000 = 0xC0010000 ∧
    ∃ text data param : MEMORY_AREA,
      (MmInitVirtualMemory sampleConstants sampleCollaborators sampleSections 0xC0010000
          0x10000).area .kernel_text_desc = some text ∧
      (MmInitVirtualMemory sampleConstants sampleCollaborators sampleSections 0xC0010000
          0x10000).area .kernel_data_desc = some data ∧
      (MmInitVirtualMemory sampleConstants sampleCollaborators sampleSections 0xC0010000
          0x10000).area .kernel_param_desc = some param ∧
      text.BaseAddress = KERNEL_BASE ∧
      text.BaseAddress + text.Length = pageRoundUp (FindSegmentEnd sampleSections ".text") ∧
      data.BaseAddress = pageRoundUp (FindSegmentEnd sampleSections ".text") ∧
      data.BaseAddress + data.Length = pageRoundUp (FindSegmentStart sampleSections ".reloc") ∧
      param.BaseAddress = pageRoundUp (FindSegmentStart sampleSections ".reloc") ∧
      param.BaseAddress + param.Length = pageRoundUp 0xC0010000 ∧
      (text.BaseAddress % PAGE_SIZE = 0 ∧ text.Length % PAGE_SIZE = 0 ∧
        data.BaseAddress % PAGE_SIZE = 0 ∧ data.Length % PAGE_SIZE = 0 ∧
        param.BaseAddress % PAGE_SIZE = 0 ∧ param.Length % PAGE_SIZE = 0) ∧
      (∀ x, ¬(text.Contains x ∧ data.Contains x) ∧ ¬(text.Contains x ∧ param.Contains x) ∧
        ¬(data.Contains x ∧ param.Contains x)) ∧
      (∀ x, (text.Contains x ∨ data.Contains x ∨ param.Contains x) ↔
        (KERNEL_BASE ≤ x ∧ x < pageRoundUp 0xC0010000)) :=
  ⟨by decide, by decide, by decide, by decide,
    MmInitVirtualMemory_image_tiling sampleConstants sampleCollaborators sampleSections
      0xC0010000 0x10000 (by decide) (by decide) (by decide) (by decide)⟩

/-! ## Lock balance -/

/-- Every returning path but one frees both locks: `KeAttachProcess`,
`KeDetachProcess` and `KeUnstackDetachProcess` always do, and
`KeStackAttachProcess` does when the target is not the process the current APC
state is bound to. -/
theorem LocksFree_after_return (s : KSTATE) (h : LocksFree s) (P : PKPROCESS) (b : Nat) :
    (∀ s1, KeAttachProcess P s = .Return s1 → LocksFree s1) ∧
    (∀ s1, KeDetachProcess s = .Return s1 → LocksFree s1) ∧
    (∀ s1, KeStackAttachProcess P (.Buffer b) s = .Return s1 →
      (s.Threads s.CurrentThread).ApcState.Process ≠ P → LocksFree s1) ∧
    (∀ s1, KeUnstackDetachProcess (.Buffer b) s = .Return s1 → LocksFree s1) := by
  refine ⟨?_, ?_, ?_, ?_⟩
  · intro s1 hs
    simp only [KeAttachProcess, KeIsExecutingDpc, KeGetCurrentThread] at hs
    split_ifs at hs with h1 h2
    · injection hs with hs
      subst hs
      simp [LocksFree, KeAcquireDispatcherDatabaseLock, KeReleaseDispatcherDatabaseLock,
        KeAcquireSpinLockAtDpcLevel, KeReleaseSpinLockFromDpcLevel, setThread]
    · injection hs with hs
      subst hs
      simp [LocksFree, KiAttachProcess, KiSwapProcess, KiMoveApcState,
        Ke386SetPageTableDirectory, KeAcquireDispatcherDatabaseLock,
        KeReleaseDispatcherDatabaseLock, KeAcquireSpinLockAtDpcLevel,
        KeReleaseSpinLockFromDpcLevel, setThread, setProcess, readApcState, writeApcState]
  · intro s1 hs
    simp only [KeDetachProcess, KeGetCurrentThread] at hs
    split_ifs at hs with h1
    injection hs with hs
    subst hs
    simp [LocksFree, KiSwapProcess, KiMoveApcState,
      Ke386SetPageTableDirectory, KeAcquireDispatcherDatabaseLock,
      KeReleaseDispatcherDatabaseLock, KeAcquireSpinLockAtDpcLevel,
      KeReleaseSpinLockFromDpcLevel, setThread, setProcess, readApcState, writeApcState,
      writeApcStateProcess]
  · intro s1 hs hP
    simp only [KeStackAttachProcess, KeIsExecutingDpc, KeGetCurrentThread] at hs
    split_ifs at hs with h1 h2 h3
    · exact absurd (by simpa [KeAcquireDispatcherDatabaseLock, KeAcquireSpinLockAtDpcLevel,
        setThread] using h2) hP
    · injection hs with hs
      subst hs
      simp [LocksFree, KiAttachProcess, KiSwapProcess, KiMoveApcState,
        Ke386SetPageTableDirectory, KeAcquireDispatcherDatabaseLock,
        KeReleaseDispatcherDatabaseLock, KeAcquireSpinLockAtDpcLevel,
        KeReleaseSpinLockFromDpcLevel, setThread, setProcess, readApcState, writeApcState]
    · injection hs with hs
      subst hs
      simp [LocksFree, KiAttachProcess, KiSwapProcess, KiMoveApcState,
        Ke386SetPageTableDirectory, KeAcquireDispatcherDatabaseLock,
        KeReleaseDispatcherDatabaseLock, KeAcquireSpinLockAtDpcLevel,
        KeReleaseSpinLockFromDpcLevel, setThread, setProcess, readApcState, writeApcState,
        writeApcStateProcess]
  · intro s1 hs
    simp only [KeUnstackDetachProcess, KeGetCurrentThread] at hs
    split_ifs at hs with h1 h2 h3
    · injection hs with hs
      subst hs
      exact h
    · injection hs with hs
      subst hs
      simp [LocksFree, KiSwapProcess, KiMoveApcState,
        Ke386SetPageTableDirectory, KeAcquireDispatcherDatabaseLock,
        KeReleaseDispatcherDatabaseLock, KeAcquireSpinLockAtDpcLevel,
        KeReleaseSpinLockFromDpcLevel, setThread, readApcState, writeApcState]
    · injection hs with hs
      subst hs
      simp [LocksFree, KiSwapProcess, KiMoveApcState,
        Ke386SetPageTableDirectory, KeAcquireDispatcherDatabaseLock,
        KeReleaseDispatcherDatabaseLock, KeAcquireSpinLockAtDpcLevel,
        KeReleaseSpinLockFromDpcLevel, setThread, readApcState, writeApcState,
        writeApcStateProcess]

/-- C24 (the code departs from the claim). `sampleState` has both locks free
and its thread belongs to process 100; `KeStackAttachProcess(100, buf)` takes
the branch "already attached to the same process" and returns with the
dispatcher database lock and the APC queue lock of the thread still held and
the execution level still raised.  On the same state the branch of
`KeAttachProcess(100)` for a process already attached returns with both
locks free. -/
theorem KeStackAttachProcess_same_process_locks_at_sample :
    LocksFree sampleState ∧
      (sampleState.Threads sampleState.CurrentThread).ApcState.Process = 100 ∧
      (KeStackAttachProcess 100 (.Buffer 0) sampleState).returned = true ∧
      (KeStackAttachProcess 100 (.Buffer 0) sampleState).state.DispatcherLock = true ∧
      ((KeStackAttachProcess 100 (.Buffer 0) sampleState).state.Threads 0).ApcQueueLock = true ∧
      (KeStackAttachProcess 100 (.Buffer 0) sampleState).state.Irql = DISPATCH_LEVEL ∧
      ¬LocksFree (KeStackAttachProcess 100 (.Buffer 0) sampleState).state ∧
      LocksFree (KeAttachProcess 100 sampleState).state := by
  decide

/-! ## The environment pointer table -/

/-- A store through a `PRKAPC_STATE` does not change which thread runs. -/
theorem writeApcState_CurrentThread (p : PRKAPC_STATE) (v : KAPC_STATE) (s : KSTATE) :
    (writeApcState p v s).CurrentThread = s.CurrentThread := by
  rcases p with u | u | a <;> simp [writeApcState, setThread]

/-- A store through a `PRKAPC_STATE` changes an APC state record only: the
environment index and the pointer table of every thread stay as they are. -/
theorem writeApcState_table (p : PRKAPC_STATE) (v : KAPC_STATE) (s : KSTATE) (t : Nat) :
    ((writeApcState p v s).Threads t).ApcStateIndex = (s.Threads t).ApcStateIndex ∧
    ((writeApcState p v s).Threads t).ApcStatePointer0 = (s.Threads t).ApcStatePointer0 ∧
    ((writeApcState p v s).Threads t).ApcStatePointer1 = (s.Threads t).ApcStatePointer1 := by
  rcases p with u | u | a
  · by_cases hu : t = u
    · subst hu; simp [writeApcState, setThread]
    · simp [writeApcState, setThread, hu]
  · by_cases hu : t = u
    · subst hu; simp [writeApcState, setThread]
    · simp [writeApcState, setThread, hu]
  · simp [writeApcState]

/-- C25. Environment pointer table consistency: when the pointer table of
the running thread matches its environment index before a call, it does so
again after every `KeAttachProcess`, `KeDetachProcess`, `KeStackAttachProcess`
or `KeUnstackDetachProcess` that returns, for every target and every state
pointer the caller passes, stacked attaches that save into a caller buffer
included; and `KeIsAttachedProcess` then returns a non-zero value, which is
`TRUE`, exactly when the index is `AttachedApcEnvironment`, and 0 exactly
when it is `OriginalApcEnvironment`. -/
theorem PointerTableConsistent_preserved (s : KSTATE) (h : PointerTableConsistent s)
    (P : PKPROCESS) (p : PRKAPC_STATE) :
    (∀ s1, KeAttachProcess P s = .Return s1 → PointerTableConsistent s1) ∧
    (∀ s1, KeDetachProcess s = .Return s1 → PointerTableConsistent s1) ∧
    (∀ s1, KeStackAttachProcess P p s = .Return s1 → PointerTableConsistent s1) ∧
    (∀ s1, KeUnstackDetachProcess p s = .Return s1 → PointerTableConsistent s1) ∧
    (KeIsAttachedProcess s ≠ 0 ↔
      (s.Threads s.CurrentThread).ApcStateIndex = AttachedApcEnvironment) ∧
    (KeIsAttachedProcess s = 1 ↔
      (s.Threads s.CurrentThread).ApcStateIndex = AttachedApcEnvironment) ∧
    (KeIsAttachedProcess s = 0 ↔
      (s.Threads s.CurrentThread).ApcStateIndex = OriginalApcEnvironment) := by
  unfold PointerTableConsistent at h
  simp only [OriginalApcEnvironment, AttachedApcEnvironment] at h
  refine ⟨?_, ?_, ?_, ?_, ?_, ?_, ?_⟩
  · intro s1 hs
    simp only [KeAttachProcess, KeIsExecutingDpc, KeGetCurrentThread] at hs
    split_ifs at hs with h1 h2
    · injection hs with hs
      subst hs
      simpa [PointerTableConsistent, OriginalApcEnvironment, AttachedApcEnvironment,
        KeAcquireDispatcherDatabaseLock, KeReleaseDispatcherDatabaseLock,
        KeAcquireSpinLockAtDpcLevel, KeReleaseSpinLockFromDpcLevel, setThread] using h
    · injection hs with hs
      subst hs
      simp [PointerTableConsistent, OriginalApcEnvironment, AttachedApcEnvironment,
        KiAttachProcess, KiSwapProcess, KiMoveApcState,
        Ke386SetPageTableDirectory, KeAcquireDispatcherDatabaseLock,
        KeReleaseDispatcherDatabaseLock, KeAcquireSpinLockAtDpcLevel,
        KeReleaseSpinLockFromDpcLevel, setThread, setProcess, readApcState, writeApcState]
  · intro s1 hs
    simp only [KeDetachProcess, KeGetCurrentThread] at hs
    split_ifs at hs with h1
    injection hs with hs
    subst hs
    simp [PointerTableConsistent, OriginalApcEnvironment, AttachedApcEnvironment,
      KiSwapProcess, KiMoveApcState,
      Ke386SetPageTableDirectory, KeAcquireDispatcherDatabaseLock,
      KeReleaseDispatcherDatabaseLock, KeAcquireSpinLockAtDpcLevel,
      KeReleaseSpinLockFromDpcLevel, setThread, setProcess, readApcState, writeApcState,
      writeApcStateProcess]
  · intro s1 hs
    simp only [KeStackAttachProcess, KeIsExecutingDpc, KeGetCurrentThread] at hs
    split_ifs at hs with h1 h2 h3
    · injection hs with hs
      subst hs
      simpa [PointerTableConsistent, OriginalApcEnvironment, AttachedApcEnvironment,
        KeAcquireDispatcherDatabaseLock, KeAcquireSpinLockAtDpcLevel, setThread,
        writeApcStateProcess, writeApcState_table, writeApcState_CurrentThread] using h
    · have h4 : (s.Threads s.CurrentThread).ApcStateIndex ≠ 0 := by
        simpa [KeAcquireDispatcherDatabaseLock, KeAcquireSpinLockAtDpcLevel, setThread,
          OriginalApcEnvironment] using h3
      injection hs with hs
      subst hs
      simp [h4] at h
      by_cases hp : p = .ThreadSavedApcState s.CurrentThread
      · subst hp
        simp [PointerTableConsistent, OriginalApcEnvironment, AttachedApcEnvironment,
          KiAttachProcess, KiSwapProcess, KiMoveApcState,
          Ke386SetPageTableDirectory, KeAcquireDispatcherDatabaseLock,
          KeReleaseDispatcherDatabaseLock, KeAcquireSpinLockAtDpcLevel,
          KeReleaseSpinLockFromDpcLevel, setThread, setProcess, writeApcState_table, writeApcState_CurrentThread]
      · simp [PointerTableConsistent, OriginalApcEnvironment, AttachedApcEnvironment,
          KiAttachProcess, KiSwapProcess, KiMoveApcState,
          Ke386SetPageTableDirectory, KeAcquireDispatcherDatabaseLock,
          KeReleaseDispatcherDatabaseLock, KeAcquireSpinLockAtDpcLevel,
          KeReleaseSpinLockFromDpcLevel, setThread, setProcess, writeApcState_table, writeApcState_CurrentThread, h, hp]
    · injection hs with hs
      subst hs
      simp [PointerTableConsistent, OriginalApcEnvironment, AttachedApcEnvironment,
        KiAttachProcess, KiSwapProcess, KiMoveApcState,
        Ke386SetPageTableDirectory, KeAcquireDispatcherDatabaseLock,
        KeReleaseDispatcherDatabaseLock, KeAcquireSpinLockAtDpcLevel,
        KeReleaseSpinLockFromDpcLevel, setThread, setProcess,
        writeApcStateProcess, writeApcState_table, writeApcState_CurrentThread]
  · intro s1 hs
    simp only [KeUnstackDetachProcess, KeGetCurrentThread] at hs
    split_ifs at hs with h1 h2 h3
    · injection hs with hs
      subst hs
      simpa [PointerTableConsistent, OriginalApcEnvironment, AttachedApcEnvironment] using h
    · injection hs with hs
      subst hs
      simp only [KeAcquireDispatcherDatabaseLock, KeAcquireSpinLockAtDpcLevel, setThread,
        Function.update_same, OriginalApcEnvironment, not_or] at h2
      simp [h2.1] at h
      simp [PointerTableConsistent, OriginalApcEnvironment, AttachedApcEnvironment,
        KiSwapProcess, KiMoveApcState,
        Ke386SetPageTableDirectory, KeAcquireDispatcherDatabaseLock,
        KeReleaseDispatcherDatabaseLock, KeAcquireSpinLockAtDpcLevel,
        KeReleaseSpinLockFromDpcLevel, setThread, writeApcState_table, writeApcState_CurrentThread, h]
    · injection hs with hs
      subst hs
      simp [PointerTableConsistent, OriginalApcEnvironment, AttachedApcEnvironment,
        KiSwapProcess, KiMoveApcState,
        Ke386SetPageTableDirectory, KeAcquireDispatcherDatabaseLock,
        KeReleaseDispatcherDatabaseLock, KeAcquireSpinLockAtDpcLevel,
        KeReleaseSpinLockFromDpcLevel, setThread,
        writeApcStateProcess, writeApcState_table, writeApcState_CurrentThread]
  · simp only [KeIsAttachedProcess, KeGetCurrentThread, AttachedApcEnvironment]
    rcases h with h | h <;> simp [h.1]
  · simp only [KeIsAttachedProcess, KeGetCurrentThread, AttachedApcEnvironment]
  · simp only [KeIsAttachedProcess, KeGetCurrentThread, OriginalApcEnvironment]

/-- Witness of C25 on `sampleState`: the pointer table matches the index
after `KeAttachProcess(200)` and after a stacked attach to process 300 made
from there, which saves into the caller buffer; `KeIsAttachedProcess` is 0
before and 1 after the attach. -/
theorem PointerTableConsistent_preserved_witness :
    PointerTableConsistent sampleState ∧
      PointerTableConsistent (KeAttachProcess 200 sampleState).state ∧
      PointerTableConsistent
        (KeStackAttachProcess 300 (.Buffer 0) (KeAttachProcess 200 sampleState).state).state ∧
      KeIsAttachedProcess sampleState = 0 ∧
      KeIsAttachedProcess (KeAttachProcess 200 sampleState).state = 1 :=
  ⟨by decide,
    (PointerTableConsistent_preserved sampleState (by decide) 200 (.Buffer 0)).1 _ rfl,
    (PointerTableConsistent_preserved (KeAttachProcess 200 sampleState).state
      ((PointerTableConsistent_preserved sampleState (by decide) 200 (.Buffer 0)).1 _ rfl) 300
      (.Buffer 0)).2.2.1 _ rfl,
    by decide, by decide⟩

/-! ## Guard pages -/

/-- C21 as stated fails: page-multiple sizes and no 32-bit wrap do not keep
the page after the image end unregistered.  With the sizes of
`sampleConstants`: for the image of `sampleSections` with image end
0xD0000000 that page lies in the low memory window registered for
`kernel_mapped_low_mem_desc`; with image end 0xC0010000 it lies in the code
descriptor when the image has no `.text` section and in the data descriptor
when `.reloc` starts before the end of `.text`; and for the image of
`sampleSections` with image end 0xC0002000, below the start of `.reloc`, it
lies in the data descriptor. -/
theorem MmInitVirtualMemory_guard_pages_counterexample :
    (sampleConstants.MM_KERNEL_MAP_SIZE % PAGE_SIZE = 0 ∧
      sampleConstants.MM_NONPAGED_POOL_SIZE % PAGE_SIZE = 0 ∧
      sampleConstants.MM_PAGED_POOL_SIZE % PAGE_SIZE = 0) ∧
    (pageRoundUp 0xD0000000 + PAGE_SIZE + sampleConstants.MM_KERNEL_MAP_SIZE + PAGE_SIZE +
        sampleConstants.MM_NONPAGED_POOL_SIZE + PAGE_SIZE + sampleConstants.MM_PAGED_POOL_SIZE <
        2 ^ 32 ∧
      ∃ a ∈ (MmInitVirtualMemory sampleConstants sampleCollaborators sampleSections
          0xD0000000 0x10000000).Areas,
        a.Result = .kernel_mapped_low_mem_desc ∧ a.Contains (pageRoundUp 0xD0000000)) ∧
    (pageRoundUp 0xC0010000 + PAGE_SIZE + sampleConstants.MM_KERNEL_MAP_SIZE + PAGE_SIZE +
        sampleConstants.MM_NONPAGED_POOL_SIZE + PAGE_SIZE + sampleConstants.MM_PAGED_POOL_SIZE <
        2 ^ 32 ∧
      (∃ a ∈ (MmInitVirtualMemory sampleConstants sampleCollaborators sampleSectionsNoText
          0xC0010000 0x10000).Areas,
        a.Result = .kernel_text_desc ∧ a.Contains (pageRoundUp 0xC0010000)) ∧
      ∃ a ∈ (MmInitVirtualMemory sampleConstants sampleCollaborators sampleSectionsRelocFirst
          0xC0010000 0x10000).Areas,
        a.Result = .kernel_data_desc ∧ a.Contains (pageRoundUp 0xC0010000)) ∧
    (pageRoundUp 0xC0002000 + PAGE_SIZE + sampleConstants.MM_KERNEL_MAP_SIZE + PAGE_SIZE +
        sampleConstants.MM_NONPAGED_POOL_SIZE + PAGE_SIZE + sampleConstants.MM_PAGED_POOL_SIZE <
        2 ^ 32 ∧
      ∃ a ∈ (MmInitVirtualMemory sampleConstants sampleCollaborators sampleSections
          0xC0002000 0x2000).Areas,
        a.Result = .kernel_data_desc ∧ a.Contains (pageRoundUp 0xC0002000)) :=
  ⟨by decide,
    ⟨by decide,
      { Result := .kernel_mapped_low_mem_desc, Type_ := .MEMORY_AREA_SYSTEM
        BaseAddress := 0xd0000000, Length := 0x100000 },
      by decide, rfl, by unfold MEMORY_AREA.Contains; decide⟩,
    ⟨by decide,
      ⟨{ Result := .kernel_text_desc, Type_ := .MEMORY_AREA_SYSTEM
         BaseAddress := 0xC0000000, Length := 0x40000000 },
        by decide, rfl, by unfold MEMORY_AREA.Contains; decide⟩,
      { Result := .kernel_data_desc, Type_ := .MEMORY_AREA_SYSTEM
        BaseAddress := 0xC0002000, Length := 0xFFFFE000 },
      by decide, rfl, by unfold MEMORY_AREA.Contains; decide⟩,
    ⟨by decide,
      { Result := .kernel_data_desc, Type_ := .MEMORY_AREA_SYSTEM
        BaseAddress := 0xC0001000, Length := 0x2000 },
      by decide, rfl, by unfold MEMORY_AREA.Contains; decide⟩⟩

/-- C21, amended. Guard pages: for an image with `KERNEL_BASE` at most the end
of `.text`, that at most the start of `.reloc`, that at most
`LastKernelAddress`, for kernel map, non-paged pool and paged pool sizes that
are page multiples with no 32-bit wrap up to the end of the paged pool, and
when each of the four fixed windows ends at or below the page-rounded image
end or starts at or above the paged pool, `MmInitVirtualMemory` registers the
kernel map region at one page above the page-rounded image end, the
non-paged pool at one page above the end of the kernel map and the paged
pool at one page above the end of the non-paged pool, each with its
configured size; the three bases are page aligned, the regions lie in that
ascending order, no address lies in two of them, and no address of the three
pages in between lies in any of the ten memory areas the function
registers. -/
theorem MmInitVirtualMemory_guard_pages (K : MM_CONSTANTS) (C : MM_COLLABORATORS)
    (Sections : List IMAGE_SECTION_HEADER) (LastKernelAddress KernelLength : Nat)
    (hK : K.MM_KERNEL_MAP_SIZE % PAGE_SIZE = 0)
    (hN : K.MM_NONPAGED_POOL_SIZE % PAGE_SIZE = 0)
    (hP : K.MM_PAGED_POOL_SIZE % PAGE_SIZE = 0)
    (hWrap : pageRoundUp LastKernelAddress + PAGE_SIZE + K.MM_KERNEL_MAP_SIZE + PAGE_SIZE +
      K.MM_NONPAGED_POOL_SIZE + PAGE_SIZE + K.MM_PAGED_POOL_SIZE < 2 ^ 32)
    (h1 : KERNEL_BASE ≤ FindSegmentEnd Sections ".text")
    (h2 : FindSegmentEnd Sections ".text" ≤ FindSegmentStart Sections ".reloc")
    (h3 : FindSegmentStart Sections ".reloc" ≤ LastKernelAddress)
    (hFixed : ∀ a ∈ (MmInitVirtualMemory K C Sections LastKernelAddress KernelLength).Areas,
      a.Result.IsFixedWindow = true →
        a.BaseAddress + a.Length ≤ pageRoundUp LastKernelAddress ∨
        pageRoundUp LastKernelAddress + PAGE_SIZE + K.MM_KERNEL_MAP_SIZE + PAGE_SIZE +
          K.MM_NONPAGED_POOL_SIZE + PAGE_SIZE ≤ a.BaseAddress) :
    ∃ map npool ppool : MEMORY_AREA,
      (MmInitVirtualMemory K C Sections LastKernelAddress KernelLength).area
          .MiKernelMapDescriptor = some map ∧
      (MmInitVirtualMemory K C Sections LastKernelAddress KernelLength).area
          .kernel_pool_desc = some npool ∧
      (MmInitVirtualMemory K C Sections LastKernelAddress KernelLength).area
          .MiPagedPoolDescriptor = some ppool ∧
      map.BaseAddress = pageRoundUp LastKernelAddress + PAGE_SIZE ∧
      map.Length = K.MM_KERNEL_MAP_SIZE ∧
      npool.BaseAddress = map.BaseAddress + map.Length + PAGE_SIZE ∧
      npool.Length = K.MM_NONPAGED_POOL_SIZE ∧
      ppool.BaseAddress = npool.BaseAddress + npool.Length + PAGE_SIZE ∧
      ppool.Length = K.MM_PAGED_POOL_SIZE ∧
      (map.BaseAddress = (MmInitVirtualMemory K C Sections LastKernelAddress
          KernelLength).MiKernelMapStart ∧
        npool.BaseAddress = (MmInitVirtualMemory K C Sections LastKernelAddress
          KernelLength).MiNonPagedPoolStart ∧
        ppool.BaseAddress = (MmInitVirtualMemory K C Sections LastKernelAddress
          KernelLength).MmPagedPoolBase) ∧
      (map.BaseAddress % PAGE_SIZE = 0 ∧ npool.BaseAddress % PAGE_SIZE = 0 ∧
        ppool.BaseAddress % PAGE_SIZE = 0) ∧
      (pageRoundUp LastKernelAddress < map.BaseAddress ∧ map.BaseAddress < npool.BaseAddress ∧
        npool.BaseAddress < ppool.BaseAddress) ∧
      (∀ x, ¬(map.Contains x ∧ npool.Contains x) ∧ ¬(map.Contains x ∧ ppool.Contains x) ∧
        ¬(npool.Contains x ∧ ppool.Contains x)) ∧
      (∀ x, (pageRoundUp LastKernelAddress ≤ x ∧ x < pageRoundUp LastKernelAddress + PAGE_SIZE) ∨
          (map.BaseAddress + map.Length ≤ x ∧ x < map.BaseAddress + map.Length + PAGE_SIZE) ∨
          (npool.BaseAddress + npool.Length ≤ x ∧
            x < npool.BaseAddress + npool.Length + PAGE_SIZE) →
        ∀ a ∈ (MmInitVirtualMemory K C Sections LastKernelAddress KernelLength).Areas,
          ¬a.Contains x) := by
  have e : (2 : Nat) ^ 32 = 4294967296 := by norm_num
  obtain ⟨t1, t2, t3⟩ := pageRoundUp_spec (FindSegmentEnd Sections ".text")
  obtain ⟨r1, r2, r3⟩ := pageRoundUp_spec (FindSegmentStart Sections ".reloc")
  obtain ⟨l1, l2, l3⟩ := pageRoundUp_spec LastKernelAddress
  have m1 := pageRoundUp_mono h2
  have m2 := pageRoundUp_mono h3
  have hL := PAGE_ROUND_UP_eq LastKernelAddress (by simp only [PAGE_SIZE, e] at *; omega)
  have hT := PAGE_ROUND_UP_eq (FindSegmentEnd Sections ".text")
    (by simp only [PAGE_SIZE, e] at *; omega)
  have hR := PAGE_ROUND_UP_eq (FindSegmentStart Sections ".reloc")
    (by simp only [PAGE_SIZE, e] at *; omega)
  have f0 := hFixed { Result := .kernel_map_desc, Type_ := .MEMORY_AREA_SYSTEM
                      BaseAddress := 0xf0000000, Length := 0x400000 }
    (by simp [MmInitVirtualMemory]) rfl
  have f1 := hFixed { Result := .kernel_kpcr_desc, Type_ := .MEMORY_AREA_SYSTEM
                      BaseAddress := K.KPCR_BASE
                      Length := mulULONG PAGE_SIZE K.MAXIMUM_PROCESSORS }
    (by simp [MmInitVirtualMemory]) rfl
  have f2 := hFixed { Result := .kernel_mapped_low_mem_desc, Type_ := .MEMORY_AREA_SYSTEM
                      BaseAddress := 0xd0000000, Length := 0x100000 }
    (by simp [MmInitVirtualMemory]) rfl
  have f9 := hFixed { Result := .kernel_shared_data_desc, Type_ := .MEMORY_AREA_SYSTEM
                      BaseAddress := K.KI_USER_SHARED_DATA, Length := PAGE_SIZE }
    (by simp [MmInitVirtualMemory]) rfl
  clear hFixed
  refine ⟨{ Result := .MiKernelMapDescriptor, Type_ := .MEMORY_AREA_SYSTEM
            BaseAddress := addULONG (PAGE_ROUND_UP LastKernelAddress) PAGE_SIZE
            Length := K.MM_KERNEL_MAP_SIZE },
    { Result := .kernel_pool_desc, Type_ := .MEMORY_AREA_SYSTEM
      BaseAddress := addULONG (addULONG (addULONG (PAGE_ROUND_UP LastKernelAddress) PAGE_SIZE)
        K.MM_KERNEL_MAP_SIZE) PAGE_SIZE
      Length := K.MM_NONPAGED_POOL_SIZE },
    { Result := .MiPagedPoolDescriptor, Type_ := .MEMORY_AREA_PAGED_POOL
      BaseAddress := addULONG (addULONG (addULONG (addULONG (addULONG
        (PAGE_ROUND_UP LastKernelAddress) PAGE_SIZE) K.MM_KERNEL_MAP_SIZE) PAGE_SIZE)
        K.MM_NONPAGED_POOL_SIZE) PAGE_SIZE
      Length := K.MM_PAGED_POOL_SIZE },
    by simp [MmInitVirtualMemory, MM_VIRTUAL_MEMORY.area],
    by simp [MmInitVirtualMemory, MM_VIRTUAL_MEMORY.area],
    by simp [MmInitVirtualMemory, MM_VIRTUAL_MEMORY.area], ?_⟩
  simp only [hL, hT, hR, MEMORY_AREA.Contains, MmInitVirtualMemory, List.mem_cons,
    List.mem_singleton, List.not_mem_nil, or_false]
  generalize pageRoundUp (FindSegmentEnd Sections ".text") = t at *
  generalize pageRoundUp (FindSegmentStart Sections ".reloc") = r at *
  generalize pageRoundUp LastKernelAddress = l at *
  generalize K.MM_KERNEL_MAP_SIZE = km at *
  generalize K.MM_NONPAGED_POOL_SIZE = np at *
  generalize K.MM_PAGED_POOL_SIZE = pp at *
  generalize K.KPCR_BASE = kpcr at *
  generalize K.KI_USER_SHARED_DATA = shared at *
  generalize mulULONG PAGE_SIZE K.MAXIMUM_PROCESSORS = kl at *
  simp only [addULONG, subULONG, KERNEL_BASE, PAGE_SIZE, e] at *
  have a1 : (l + 4096) % 4294967296 = l + 4096 := by omega
  have a2 : ((l + 4096) + km) % 4294967296 = l + 4096 + km := by omega
  have a3 : ((l + 4096 + km) + 4096) % 4294967296 = l + 4096 + km + 4096 := by omega
  have a4 : ((l + 4096 + km + 4096) + np) % 4294967296 = l + 4096 + km + 4096 + np := by omega
  have a5 : ((l + 4096 + km + 4096 + np) + 4096) % 4294967296 =
      l + 4096 + km + 4096 + np + 4096 := by omega
  simp only [a1, a2, a3, a4, a5]
  refine ⟨?_, ?_, ?_, ?_, ?_, ?_, ⟨?_, ?_, ?_⟩, ⟨?_, ?_, ?_⟩, ⟨?_, ?_, ?_⟩,
    fun x => ⟨?_, ?_, ?_⟩, fun x hx a ha => ?_⟩
  any_goals first | omega | exact True.intro
  rcases ha with ha | ha | ha | ha | ha | ha | ha | ha | ha | ha <;> subst ha <;>
    simp only <;> omega

/-- Witness of the amended C21: the constants of `sampleConstants` (all sizes
are page multiples) and the image of `sampleSections` with image end
0xC0010000; the kernel map starts at 0xC0011000 and the paged pool ends
below the fixed windows. -/
theorem MmInitVirtualMemory_guard_pages_witness :
    (MmInitVirtualMemory sampleConstants sampleCollaborators sampleSections 0xC0010000
        0x10000).area .MiKernelMapDescriptor =
      some { Result := .MiKernelMapDescriptor, Type_ := .MEMORY_AREA_SYSTEM
             BaseAddress := 0xC0011000, Length := 0x1000000 } ∧
    ∃ map npool ppool : MEMORY_AREA,
      (MmInitVirtualMemory sampleConstants sampleCollaborators sampleSections 0xC0010000
          0x10000).area .MiKernelMapDescriptor = some map ∧
      (MmInitVirtualMemory sampleConstants sampleCollaborators sampleSections 0xC0010000
          0x10000).area .kernel_pool_desc = some npool ∧
      (MmInitVirtualMemory sampleConstants sampleCollaborators sampleSections 0xC0010000
          0x10000).area .MiPagedPoolDescriptor = some ppool ∧
      map.BaseAddress = pageRoundUp 0xC0010000 + PAGE_SIZE ∧
      map.Length = sampleConstants.MM_KERNEL_MAP_SIZE ∧
      npool.BaseAddress = map.BaseAddress + map.Length + PAGE_SIZE ∧
      npool.Length = sampleConstants.MM_NONPAGED_POOL_SIZE ∧
      ppool.BaseAddress = npool.BaseAddress + npool.Length + PAGE_SIZE ∧
      ppool.Length = sampleConstants.MM_PAGED_POOL_SIZE ∧
      (map.BaseAddress = (MmInitVirtualMemory sampleConstants sampleCollaborators
          sampleSections 0xC0010000 0x10000).MiKernelMapStart ∧
        npool.BaseAddress = (MmInitVirtualMemory sampleConstants sampleCollaborators
          sampleSections 0xC0010000 0x10000).MiNonPagedPoolStart ∧
        ppool.BaseAddress = (MmInitVirtualMemory sampleConstants sampleCollaborators
          sampleSections 0xC0010000 0x10000).MmPagedPoolBase) ∧
      (map.BaseAddress % PAGE_SIZE = 0 ∧ npool.BaseAddress % PAGE_SIZE = 0 ∧
        ppool.BaseAddress % PAGE_SIZE = 0) ∧
      (pageRoundUp 0xC0010000 < map.BaseAddress ∧ map.BaseAddress < npool.BaseAddress ∧
        npool.BaseAddress < ppool.BaseAddress) ∧
      (∀ x, ¬(map.Contains x ∧ npool.Contains x) ∧ ¬(map.Contains x ∧ ppool.Contains x) ∧
        ¬(npool.Contains x ∧ ppool.Contains x)) ∧
      (∀ x, (pageRoundUp 0xC0010000 ≤ x ∧ x < pageRoundUp 0xC0010000 + PAGE_SIZE) ∨
          (map.BaseAddress + map.Length ≤ x ∧ x < map.BaseAddress + map.Length + PAGE_SIZE) ∨
          (npool.BaseAddress + npool.Length ≤ x ∧
            x < npool.BaseAddress + npool.Length + PAGE_SIZE) →
        ∀ a ∈ (MmInitVirtualMemory sampleConstants sampleCollaborators sampleSections
            0xC0010000 0x10000).Areas,
          ¬a.Contains x) :=
  ⟨by decide,
    MmInitVirtualMemory_guard_pages sampleConstants sampleCollaborators sampleSections
      0xC0010000 0x10000 (by decide) (by decide) (by decide) (by decide) (by decide)
      (by decide) (by decide) (by decide)⟩

/-! ## Failures during `MmInitVirtualMemory` -/

/-- The only stop of `MmInitVirtualMemory` is on the status of
`MmCreateVirtualMapping`: whatever `MmCreateMemoryArea` and
`MmRequestPageMemoryConsumer` report and whatever the section table holds,
all ten memory areas are handed to `MmCreateMemoryArea`, and the function
ends in `KEBUGCHECK` exactly when `MmCreateVirtualMapping` fails. -/
theorem MmInitVirtualMemory_BugCheck_iff (K : MM_CONSTANTS) (C : MM_COLLABORATORS)
    (Sections : List IMAGE_SECTION_HEADER) (LastKernelAddress KernelLength : Nat) :
    ((MmInitVirtualMemory K C Sections LastKernelAddress KernelLength).BugCheck = true ↔
      C.MmCreateVirtualMapping = false) ∧
    (MmInitVirtualMemory K C Sections LastKernelAddress KernelLength).Areas.length = 10 := by
  simp [MmInitVirtualMemory]

/-- C22 (the code departs from the claim). With `sampleCollaboratorsFailing`
the registration of every memory area and the acquisition of the page for the
shared data page report failure, while `MmCreateVirtualMapping` succeeds;
`MmInitVirtualMemory` does not stop: it goes on through all ten calls of
`MmCreateMemoryArea` and returns. -/
theorem MmInitVirtualMemory_failures_at_sample :
    (∀ d, sampleCollaboratorsFailing.MmCreateMemoryArea d = false) ∧
      sampleCollaboratorsFailing.MmRequestPageMemoryConsumer = false ∧
      (MmInitVirtualMemory sampleConstants sampleCollaboratorsFailing sampleSections
        0xC0010000 0x10000).BugCheck = false ∧
      (MmInitVirtualMemory sampleConstants sampleCollaboratorsFailing sampleSections
        0xC0010000 0x10000).Areas.length = 10 ∧
      (MmInitVirtualMemory sampleConstants sampleCollaboratorsFailing sampleSections
        0xC0010000 0x10000).Areas =
      (MmInitVirtualMemory sampleConstants sampleCollaborators sampleSections
        0xC0010000 0x10000).Areas :=
  ⟨fun _ => rfl, rfl, by decide, by decide, by decide⟩

/-- C23 (the code departs from the claim). The image of
`sampleSectionsNoReloc` has no section named `.reloc` and that of
`sampleSectionsNoText` none named `.text`, so `FindSection` returns no
section; `MmInitVirtualMemory` does not stop on either.  It takes the `NULL`
that `FindSegmentStart` and `FindSegmentEnd` return as an address: without
`.reloc` the data descriptor is registered with length 0x3FFFF000 and the
trailing descriptor with base 0, without `.text` the code descriptor is
registered with length 0x40000000 and the data descriptor with base 0. -/
theorem MmInitVirtualMemory_missing_section_at_sample :
    FindSection sampleSectionsNoReloc ".reloc" = none ∧
      FindSection sampleSectionsNoText ".text" = none ∧
      (MmInitVirtualMemory sampleConstants sampleCollaborators sampleSectionsNoReloc
        0xC0010000 0x10000).BugCheck = false ∧
      (MmInitVirtualMemory sampleConstants sampleCollaborators sampleSectionsNoReloc
        0xC0010000 0x10000).area .kernel_data_desc =
        some { Result := .kernel_data_desc, Type_ := .MEMORY_AREA_SYSTEM
               BaseAddress := 0xC0001000, Length := 0x3FFFF000 } ∧
      (MmInitVirtualMemory sampleConstants sampleCollaborators sampleSectionsNoReloc
        0xC0010000 0x10000).area .kernel_param_desc =
        some { Result := .kernel_param_desc, Type_ := .MEMORY_AREA_SYSTEM
               BaseAddress := 0, Length := 0xC0010000 } ∧
      (MmInitVirtualMemory sampleConstants sampleCollaborators sampleSectionsNoText
        0xC0010000 0x10000).BugCheck = false ∧
      (MmInitVirtualMemory sampleConstants sampleCollaborators sampleSectionsNoText
        0xC0010000 0x10000).area .kernel_text_desc =
        some { Result := .kernel_text_desc, Type_ := .MEMORY_AREA_SYSTEM
               BaseAddress := 0xC0000000, Length := 0x40000000 } ∧
      (MmInitVirtualMemory sampleConstants sampleCollaborators sampleSectionsNoText
        0xC0010000 0x10000).area .kernel_data_desc =
        some { Result := .kernel_data_desc, Type_ := .MEMORY_AREA_SYSTEM
               BaseAddress := 0, Length := 0xC0003000 } := by
  decide

end NtosKrnl
